import Mathlib

/-!
Verification of the true-shuffle controller.

This file gives a shallow embedding of the core logic of the repository
(`core/models.py`, `core/shuffle.py`, `core/exporter.py`,
`app/spotify_client.py`, `app/controller.py`, `app/controller_routes.py`)
and proves properties of the shuffle pipeline, the export/import round
trip, the HTTP retry loop and the controller reconciliation operations.

Remote I/O (Spotify responses, the database, the random source) is
modelled as explicit environment parameters: every HTTP response and
every random draw is an input, so theorems quantify over all possible
remote behaviours.  Machine integers are modelled as `Nat`/`Int`
(Python integers are unbounded, so no wrap-around is involved), JSON
values by an inductive `JValue`, and fallible code by `Except`.
-/

/-! ## core/models.py -/

/-- The `Track` — minimal representation of a Spotify track (pydantic model,
field defaults `is_playable=True`, `is_local=False`, `track_type="track"`). -/
structure Track where
  uri : String
  name : String := ""
  artist : String := ""
  is_playable : Bool := true
  is_local : Bool := false
  track_type : String := "track"
deriving DecidableEq, Repr

/-- The `Track.is_valid` — playable, not local, a track, and a spotify track URI. -/
def Track.is_valid (t : Track) : Bool :=
  t.is_playable && !t.is_local && (t.track_type == "track")
    && t.uri.startsWith ("spotify:track:")

/-! ## core/shuffle.py -/

/-- The `filter_valid_tracks` — split into (valid, skipped). -/
def filter_valid_tracks (tracks : List Track) : List Track × List Track :=
  tracks.partition (fun t => t.is_valid)

/-- Loop of `dedup_by_uri`: walk the list keeping the first occurrence of
each URI; `seen` is the set of URIs already kept. -/
def dedupGo (seen : List String) : List Track → List Track
  | [] => []
  | t :: ts =>
    if t.uri ∈ seen then dedupGo seen ts
    else t :: dedupGo (t.uri :: seen) ts

/-- The `dedup_by_uri` — remove duplicate tracks (same URI), keeping the first
occurrence. -/
def dedup_by_uri (tracks : List Track) : List Track :=
  dedupGo [] tracks

/-- One simultaneous swap `items[i], items[j] = items[j], items[i]`. -/
def swapIdx (l : List String) (i j : Nat) : List String :=
  let vi := l.getD i ("")
  let vj := l.getD j ("")
  (l.set i vj).set j vi

/-- The Fisher–Yates loop `for i in range(n-1, 0, -1)`.  The randomness
source is a stream `rng : Nat → Nat`; the draw of iteration `t` is
`rng t % (i+1)`, i.e. a value `j ∈ [0, i]` — every possible sequence of
`randint(0, i)` results is realised by some stream. -/
def fyLoop (rng : Nat → Nat) : List String → Nat → Nat → List String
  | l, 0, _ => l
  | l, i + 1, t => fyLoop rng (swapIdx l (i + 1) (rng t % (i + 2))) i (t + 1)

/-- The `fisher_yates_shuffle` — in-place unbiased Fisher–Yates (Knuth) shuffle;
`t0` is the position in the random stream at which this shuffle starts
drawing. -/
def fisher_yates_shuffle (items : List String) (rng : Nat → Nat) (t0 : Nat) :
    List String :=
  fyLoop rng items (items.length - 1) t0

/-- The `_first_n_similarity` — fraction of matching positions in the first `n`
elements; `0.0` if either list has fewer than `n` elements. -/
def first_n_similarity (a b : List String) (n : Nat) : ℚ :=
  if a.length < n ∨ b.length < n then 0
  else (((a.take n).zip (b.take n)).countP (fun p => p.1 == p.2) : ℚ) / n

/-- The retry loop of `shuffle_with_guard` for the case where a previous
order is given.  `fuel` is the number of remaining loop iterations
(`max_retries + 1` at the top call), `t` the current random-stream
position; each attempt consumes `uris.length - 1` draws.  With `fuel = 0`
the Python loop body never runs (unreachable from `shuffle_with_guard`). -/
def guardLoop (uris prev : List String) (thr : ℚ) (w : Nat) (rng : Nat → Nat) :
    Nat → Nat → List String
  | 0, _ => []
  | 1, t => fisher_yates_shuffle uris rng t
  | (f + 2), t =>
    let candidate := fisher_yates_shuffle uris rng t
    if first_n_similarity candidate prev w ≤ thr then candidate
    else guardLoop uris prev thr w rng (f + 1) (t + (uris.length - 1))

/-- The `shuffle_with_guard` — shuffle with optional similarity guard.  Keyword
defaults in the source: `similarity_threshold=0.5`, `similarity_window=10`,
`max_retries=5`. -/
def shuffle_with_guard (uris : List String) (previous_order : Option (List String))
    (similarity_threshold : ℚ) (similarity_window : Nat) (max_retries : Nat)
    (rng : Nat → Nat) (t0 : Nat) : List String :=
  match previous_order with
  | none => fisher_yates_shuffle uris rng t0
  | some prev =>
    guardLoop uris prev similarity_threshold similarity_window rng
      (max_retries + 1) t0

/-- The `prepare_shuffled_run` — full pipeline: filter → dedup → shuffle (with
guard), with the source's default guard parameters. -/
def prepare_shuffled_run (tracks : List Track) (previous_order : Option (List String))
    (rng : Nat → Nat) (t0 : Nat) : List String × List Track :=
  let vs := filter_valid_tracks tracks
  let deduped := dedup_by_uri vs.1
  let uris := deduped.map Track.uri
  (shuffle_with_guard uris previous_order (1/2) 10 5 rng t0, vs.2)

/-- The candidate produced by attempt `k` of the similarity-guard loop:
attempt `k` starts at stream position `t0 + k * (|uris| - 1)` because each
earlier attempt consumed `|uris| - 1` draws. -/
def guardCandidate (uris : List String) (rng : Nat → Nat) (t0 k : Nat) :
    List String :=
  fisher_yates_shuffle uris rng (t0 + k * (uris.length - 1))

/-! ## core/exporter.py and the JSON model -/

/-- JSON values (`json.loads` / pydantic `model_dump`). -/
inductive JValue where
  | null : JValue
  | bool (b : Bool) : JValue
  | int (n : Int) : JValue
  | str (s : String) : JValue
  | arr (xs : List JValue) : JValue
  | obj (fields : List (String × JValue)) : JValue
deriving Repr

/-- The `ExportPayload` — the whitelisted run-export record. -/
structure ExportPayload where
  playlist_id : String
  mode : String
  shuffled_order : List String
  cursor : Int
  status : String
  exported_at : String
deriving DecidableEq, Repr

/-- The `ExportPayload.model_dump` — the JSON object of a payload, fields in
declaration order. -/
def payload_dump (p : ExportPayload) : List (String × JValue) :=
  [("playlist_id", JValue.str p.playlist_id),
   ("mode", JValue.str p.mode),
   ("shuffled_order", JValue.arr (p.shuffled_order.map JValue.str)),
   ("cursor", JValue.int p.cursor),
   ("status", JValue.str p.status),
   ("exported_at", JValue.str p.exported_at)]

/-- The `export_run` — build an `ExportPayload` and serialize it.  The timestamp
`datetime.now(timezone.utc).isoformat()` is an environment input
`exported_at`.  We model the serialized JSON at the value level (the
`json.dumps`/`json.loads` string round trip is the identity on values). -/
def export_run (playlist_id mode : String) (shuffled_order : List String)
    (cursor : Int) (status : String) (exported_at : String) :
    List (String × JValue) :=
  payload_dump
    { playlist_id, mode, shuffled_order, cursor, status, exported_at }

/-- The token-like field names stripped by `import_run`. -/
def forbiddenKeys : List String :=
  ["token_data", "access_token", "refresh_token", "secret_key"]

/-- The `dict.pop(k, None)` — remove the binding of key `k`. -/
def popKey (k : String) (o : List (String × JValue)) : List (String × JValue) :=
  o.filter (fun kv => kv.1 ≠ k)

/-- The `dict.get` on a parsed JSON object. -/
def jget (o : List (String × JValue)) (k : String) : Option JValue :=
  o.lookup k

/-- Pydantic validation of a `str` field. -/
def asStr : Option JValue → Option String
  | some (JValue.str s) => some s
  | _ => none

/-- Pydantic validation of an `int` field. -/
def asInt : Option JValue → Option Int
  | some (JValue.int n) => some n
  | _ => none

/-- Element-wise validation of a JSON array as a list of strings. -/
def strListOf : List JValue → Option (List String)
  | [] => some []
  | JValue.str s :: xs => (strListOf xs).map (fun r => s :: r)
  | _ => none

/-- Pydantic validation of a `List[str]` field. -/
def asStrList : Option JValue → Option (List String)
  | some (JValue.arr xs) => strListOf xs
  | _ => none

/-- The `import_run` — parse a JSON object back into an `ExportPayload`:
strip the token-like fields, then validate.  `playlist_id`, `mode`,
`shuffled_order`, `cursor`, `status` are required; `exported_at` defaults
to `""`; unknown extra fields are ignored (pydantic default config);
ill-typed fields are a `ValueError`. -/
def import_run (data : List (String × JValue)) : Except String ExportPayload :=
  let d := forbiddenKeys.foldl (fun acc k => popKey k acc) data
  match asStr (jget d ("playlist_id")), asStr (jget d ("mode")),
      asStrList (jget d ("shuffled_order")), asInt (jget d ("cursor")),
      asStr (jget d ("status")) with
  | some pid, some mode, some ord, some cur, some st =>
    match jget d ("exported_at") with
    | none => Except.ok ⟨pid, mode, ord, cur, st, ""⟩
    | some (JValue.str e) => Except.ok ⟨pid, mode, ord, cur, st, e⟩
    | some _ => Except.error ("validation error")
  | _, _, _, _, _ => Except.error ("validation error")

mutual

/-- No object anywhere inside the value binds a token-like key. -/
def tokenFreeVal : JValue → Bool
  | JValue.null => true
  | JValue.bool _ => true
  | JValue.int _ => true
  | JValue.str _ => true
  | JValue.arr xs => tokenFreeList xs
  | JValue.obj fs => tokenFreeObj fs

/-- The `tokenFreeVal` over a list of values. -/
def tokenFreeList : List JValue → Bool
  | [] => true
  | x :: xs => tokenFreeVal x && tokenFreeList xs

/-- The `tokenFreeVal` over object fields. -/
def tokenFreeObj : List (String × JValue) → Bool
  | [] => true
  | kv :: fs => !(forbiddenKeys.contains kv.1) && tokenFreeVal kv.2 && tokenFreeObj fs

end

/-! ## app/spotify_client.py — `SpotifyClient._request` -/

/-- One remote HTTP response: its status code and its parsed `Retry-After`
header (`int(resp.headers.get("Retry-After", "2"))`, environment-side). -/
structure HttpResp where
  status : Nat
  retry_after : Nat
deriving DecidableEq, Repr

/-- The remote behaviour: the response received by attempt `t` (1-based). -/
structure RequestEnv where
  resp : Nat → HttpResp

/-- Result of `_request`: the returned response's status, or a raised
`HTTPException` status. -/
inductive ReqOutcome where
  | ok (status : Nat) : ReqOutcome
  | httpError (status : Nat) : ReqOutcome
deriving DecidableEq, Repr

/-- Observable behaviour of `_request`: outcome, number of HTTP attempts
issued, and the sleeps performed (in seconds). -/
structure ReqResult where
  outcome : ReqOutcome
  attempts : Nat
  sleeps : List ℚ
deriving DecidableEq, Repr

/-- The `for attempt in range(1, MAX_RETRIES + 1)` loop of `_request`.
`attempt` is the current attempt number, `fuel` the remaining iterations;
falling off the loop raises `HTTPException(502)`. -/
def requestLoop (env : RequestEnv) : Nat → Nat → ReqResult
  | _, 0 => ⟨ReqOutcome.httpError 502, 0, []⟩
  | attempt, fuel + 1 =>
    let r := env.resp attempt
    if r.status = 429 then
      let rest := requestLoop env (attempt + 1) fuel
      ⟨rest.outcome, rest.attempts + 1, (r.retry_after : ℚ) :: rest.sleeps⟩
    else if r.status = 401 ∧ attempt = 1 then
      let rest := requestLoop env (attempt + 1) fuel
      ⟨rest.outcome, rest.attempts + 1, rest.sleeps⟩
    else if (r.status = 502 ∨ r.status = 503) ∧ attempt < 3 then
      let rest := requestLoop env (attempt + 1) fuel
      ⟨rest.outcome, rest.attempts + 1, (2 : ℚ) :: rest.sleeps⟩
    else if r.status = 403 then ⟨ReqOutcome.httpError 403, 1, []⟩
    else if r.status = 404 then ⟨ReqOutcome.httpError 404, 1, []⟩
    else ⟨ReqOutcome.ok r.status, 1, []⟩

/-- The `SpotifyClient._request` with `MAX_RETRIES = 3`. -/
def sp_request (env : RequestEnv) : ReqResult :=
  requestLoop env 1 3

/-! ## app/controller.py -/

/-- The controller state machine's states. -/
inductive ControllerState where
  | idle
  | starting
  | no_device
  | playing
  | overriding
  | advancing
  | completed
  | error
deriving DecidableEq, Repr

/-- The `.value` string of a state. -/
def ControllerState.value : ControllerState → String
  | ControllerState.idle => "idle"
  | ControllerState.starting => "starting"
  | ControllerState.no_device => "no_device"
  | ControllerState.playing => "playing"
  | ControllerState.overriding => "overriding"
  | ControllerState.advancing => "advancing"
  | ControllerState.completed => "completed"
  | ControllerState.error => "error"

/-- The `ControllerSession` — in-memory runtime state of an active controller
run (the `poll_task` handle carries no data relevant to the claims and is
not modelled). -/
structure ControllerSession where
  run_id : Nat
  user_id : Nat
  spotify_user_id : String
  playlist_id : String
  order : List String
  cursor : Nat
  queued_until_index : Nat
  state : ControllerState
  device_id : Option String
  error_message : Option String
  current_track_name : Option String
  current_artist : Option String
  current_album_art : Option String
deriving DecidableEq, Repr

/-- The `to_status_dict` — serialize a session for the status API. -/
def to_status_dict (s : ControllerSession) : List (String × JValue) :=
  [("state", JValue.str s.state.value),
   ("cursor", JValue.int s.cursor),
   ("total_tracks", JValue.int s.order.length),
   ("current_track_uri",
     if s.cursor < s.order.length then JValue.str (s.order.getD s.cursor (""))
     else JValue.null),
   ("current_track_name",
     (s.current_track_name.map JValue.str).getD JValue.null),
   ("current_artist", (s.current_artist.map JValue.str).getD JValue.null),
   ("current_album_art", (s.current_album_art.map JValue.str).getD JValue.null),
   ("error_message", (s.error_message.map JValue.str).getD JValue.null),
   ("device_id", (s.device_id.map JValue.str).getD JValue.null)]

/-- Observable remote calls issued by the controller (plus the cursor
persistence writes, which go to the run store). -/
inductive SpCall where
  | getPlayback : SpCall
  | listDevices : SpCall
  | enqueue (idx : Nat) (uri : String) : SpCall
  | play (uris : List String) (device : Option String) : SpCall
  | persist (cursor queued : Nat) : SpCall
deriving DecidableEq, Repr

/-- The `resp.status_code in (200, 204)`. -/
def status_ok (st : Nat) : Bool :=
  st == 200 || st == 204

/-- Python truthiness of an optional string: `None` and `""` are falsy. -/
def truthy : Option String → Option String
  | some ("") => none
  | o => o

/-- Outcome of a `sp_put /me/player/play` call: a response, or a raised
`SpotifyPremiumRequired`. -/
inductive PlayOutcome where
  | resp (status : Nat) : PlayOutcome
  | premium (msg : String) : PlayOutcome
deriving DecidableEq, Repr

/-- The loop of `_fill_buffer`: enqueue `order[i]` for `i` from the start
index while the POST succeeds; `queued` is the running
`queued_until_index`, `fuel` the number of remaining indices.  Returns the
final `queued_until_index` and the enqueue calls issued. -/
def fillLoop (order : List String) (enq : Nat → Nat) :
    Nat → Nat → Nat → Nat × List SpCall
  | _, queued, 0 => (queued, [])
  | i, queued, fuel + 1 =>
    let uri := order.getD i ("")
    if status_ok (enq i) then
      let r := fillLoop order enq (i + 1) i fuel
      (r.1, SpCall.enqueue i uri :: r.2)
    else (queued, [SpCall.enqueue i uri])

/-- The `_fill_buffer` — queue tracks from `max(queued_until_index, cursor)+1`
up to `min(cursor + buffer_size, len(order) - 1)` (sequential, stops at the
first non-2xx response), then persist cursor and `queued_until_index`.
`enq i` is the status code the remote returns for the POST of index `i`. -/
def fill_buffer (B : Nat) (enq : Nat → Nat) (s : ControllerSession) :
    ControllerSession × List SpCall :=
  let endIdx := min (s.cursor + B) (s.order.length - 1)
  let startFrom := max s.queued_until_index s.cursor + 1
  let r := fillLoop s.order enq startFrom s.queued_until_index
    (endIdx + 1 - startFrom)
  let s' := { s with queued_until_index := r.1 }
  (s', r.2 ++ [SpCall.persist s'.cursor s'.queued_until_index])

/-- The `item` object of a `GET /me/player` response, after the `.get`
defaulting done by the poll body (`uri`/`name` default `""`). -/
structure PlaybackItem where
  uri : String
  name : String
  artists : List String
  album_images : List String
deriving DecidableEq, Repr

/-- A `GET /me/player` response. -/
structure PlaybackResp where
  status : Nat
  item : Option PlaybackItem
  is_playing : Bool
deriving Repr

/-- Environment of one poll cycle: the playback response, the play outcome
(used only if a hard override fires) and the enqueue status codes. -/
structure PollEnv where
  playback : PlaybackResp
  play : PlayOutcome
  enq : Nat → Nat

/-- The `_hard_override` — force playback back to `order[cursor]` and refill
the buffer. -/
def hard_override (B : Nat) (play : PlayOutcome) (enq : Nat → Nat)
    (s : ControllerSession) : ControllerSession × List SpCall :=
  let s := { s with state := ControllerState.overriding }
  if s.order.length ≤ s.cursor then
    ({ s with state := ControllerState.completed }, [])
  else
    let track_uri := s.order.getD s.cursor ("")
    let dev := truthy s.device_id
    match play with
    | PlayOutcome.premium msg =>
      ({ s with state := ControllerState.error, error_message := some msg },
       [SpCall.play [track_uri] dev])
    | PlayOutcome.resp st =>
      if ¬ status_ok st then
        ({ s with
            state := ControllerState.error,
            error_message := some ("Override failed: " ++ toString st) },
         [SpCall.play [track_uri] dev])
      else
        let s := { s with queued_until_index := s.cursor }
        let r := fill_buffer B enq s
        ({ r.1 with state := ControllerState.playing },
         SpCall.play [track_uri] dev :: r.2)

/-- The multi-skip scan `for offset in range(2, 6)`: the first offset `k`
with `cursor + k` in bounds and `order[cursor + k] == current`. -/
def firstSkipMatch (order : List String) (cursor : Nat) (current : String) :
    Option Nat :=
  (List.range' 2 4).find?
    (fun k => decide (cursor + k < order.length) && (current == order.getD (cursor + k) ""))

/-- The `_poll_playback` — one poll cycle: detect track changes, skips and
deviations. -/
def poll_playback (B : Nat) (env : PollEnv) (s : ControllerSession) :
    ControllerSession × List SpCall :=
  if s.order.length ≤ s.cursor then
    ({ s with state := ControllerState.completed }, [])
  else
    let resp := env.playback
    if resp.status = 204 ∨ resp.status ≠ 200 then (s, [SpCall.getPlayback])
    else
      match resp.item with
      | none => (s, [SpCall.getPlayback])
      | some item =>
        let current_uri := item.uri
        let s := { s with
          current_track_name := some item.name,
          current_artist := some (String.intercalate (", ") item.artists),
          current_album_art := item.album_images.head? }
        if resp.is_playing = false then (s, [SpCall.getPlayback])
        else
          let expected_uri := s.order.getD s.cursor ("")
          if current_uri = expected_uri then (s, [SpCall.getPlayback])
          else if s.cursor + 1 < s.order.length ∧
              current_uri = s.order.getD (s.cursor + 1) "" then
            let s := { s with state := ControllerState.advancing,
                              cursor := s.cursor + 1 }
            let r := fill_buffer B env.enq s
            ({ r.1 with state := ControllerState.playing },
             SpCall.getPlayback :: r.2)
          else
            match firstSkipMatch s.order s.cursor current_uri with
            | some k =>
              let s := { s with cursor := s.cursor + k }
              let r := fill_buffer B env.enq s
              ({ r.1 with state := ControllerState.playing },
               SpCall.getPlayback :: r.2)
            | none =>
              let r := hard_override B env.play env.enq s
              (r.1, SpCall.getPlayback :: r.2)

/-- One device entry of `GET /me/player/devices`. -/
structure Device where
  id : String
  is_active : Bool
deriving DecidableEq, Repr

/-- The `_find_active_device` — the first `is_active` device, else the first
device, else `None`. -/
def find_active_device (devices : List Device) : Option String :=
  match devices.find? (fun d => d.is_active) with
  | some d => some d.id
  | none => devices.head?.map Device.id

/-- Environment of `start_playback`: the device list, the play outcome and
the enqueue status codes. -/
structure StartEnv where
  devices : List Device
  play : PlayOutcome
  enq : Nat → Nat

/-- The `error_message` set in the `no_device` state. -/
def noDeviceMsg : String :=
  "Kein aktives Spotify-Gerät gefunden. Öffne Spotify und drücke Play, dann klicke hier erneut."

/-- The `start_playback` — pick a device, hard-play `order[cursor]`, fill the
queue buffer, transition to `playing` (and launch the poll loop). -/
def start_playback (B : Nat) (env : StartEnv) (s : ControllerSession) :
    ControllerSession × List SpCall :=
  let s := { s with state := ControllerState.starting }
  match truthy (find_active_device env.devices) with
  | none =>
    ({ s with
        state := ControllerState.no_device,
        error_message := some noDeviceMsg }, [SpCall.listDevices])
  | some device_id =>
    let s := { s with device_id := some device_id, error_message := none }
    if s.order.length ≤ s.cursor then
      ({ s with state := ControllerState.completed }, [SpCall.listDevices])
    else
      let track_uri := s.order.getD s.cursor ("")
      match env.play with
      | PlayOutcome.premium msg =>
        ({ s with state := ControllerState.error, error_message := some msg },
         [SpCall.listDevices, SpCall.play [track_uri] none])
      | PlayOutcome.resp st =>
        if ¬ status_ok st then
          ({ s with
              state := ControllerState.error,
              error_message := some ("PUT /play failed: " ++ toString st) },
           [SpCall.listDevices, SpCall.play [track_uri] none])
        else
          let s := { s with queued_until_index := s.cursor }
          let r := fill_buffer B env.enq s
          ({ r.1 with state := ControllerState.playing },
           SpCall.listDevices :: SpCall.play [track_uri] none :: r.2)

/-- Environment of `manual_next`: the play outcome and enqueue statuses. -/
structure NextEnv where
  play : PlayOutcome
  enq : Nat → Nat

/-- The `manual_next` — advance the cursor, hard-play the new track, refill. -/
def manual_next (B : Nat) (env : NextEnv) (s : ControllerSession) :
    ControllerSession × List SpCall :=
  if s.order.length ≤ s.cursor + 1 then
    ({ s with state := ControllerState.completed },
     [SpCall.persist s.cursor s.queued_until_index])
  else
    let s := { s with cursor := s.cursor + 1 }
    let track_uri := s.order.getD s.cursor ("")
    match env.play with
    | PlayOutcome.premium msg =>
      ({ s with state := ControllerState.error, error_message := some msg },
       [SpCall.play [track_uri] none])
    | PlayOutcome.resp st =>
      if ¬ status_ok st then
        ({ s with
            state := ControllerState.error,
            error_message := some ("PUT /play failed on next: " ++ toString st) },
         [SpCall.play [track_uri] none])
      else
        let s := { s with queued_until_index := s.cursor }
        let r := fill_buffer B env.enq s
        ({ r.1 with state := ControllerState.playing },
         SpCall.play [track_uri] none :: r.2)

/-- The `stop_controller` — cancel polling, go `idle`, persist the cursor. -/
def stop_controller (s : ControllerSession) : ControllerSession × List SpCall :=
  ({ s with state := ControllerState.idle },
   [SpCall.persist s.cursor s.queued_until_index])

/-- An operation applied to a session during a run, with its remote
environment. -/
inductive ControllerOp where
  | poll (env : PollEnv) : ControllerOp
  | next (env : NextEnv) : ControllerOp
  | stop : ControllerOp
  | start (env : StartEnv) : ControllerOp

/-- Apply one operation.  A poll body runs only while the state is
`playing` (the `_poll_loop` condition); commands run unconditionally. -/
def applyOp (B : Nat) (op : ControllerOp) (s : ControllerSession) :
    ControllerSession × List SpCall :=
  match op with
  | ControllerOp.poll env =>
    if s.state = ControllerState.playing then poll_playback B env s else (s, [])
  | ControllerOp.next env => manual_next B env s
  | ControllerOp.stop => stop_controller s
  | ControllerOp.start env => start_playback B env s

/-- Run a sequence of operations. -/
def runOps (B : Nat) (ops : List ControllerOp) (s : ControllerSession) :
    ControllerSession :=
  ops.foldl (fun st op => (applyOp B op st).1) s

/-! ## Run creation / resume and the /controller/start route -/

/-- Loop of `_shuffle_order`'s dedup pass over plain URI strings. -/
def dedupStrGo (seen : List String) : List String → List String
  | [] => []
  | u :: us =>
    if u ∈ seen then dedupStrGo seen us
    else u :: dedupStrGo (u :: seen) us

/-- The `_shuffle_order` (controller.py) — copy, Fisher–Yates shuffle, then
dedup keeping the first occurrence. -/
def shuffle_order (uris : List String) (rng : Nat → Nat) : List String :=
  dedupStrGo [] (fisher_yates_shuffle uris rng 0)

/-- The columns of an active `runs` row read by `create_or_resume_run`. -/
structure RunRow where
  run_id : Nat
  shuffled_order : List String
  cursor : Nat
  queued_until_index : Nat
deriving DecidableEq, Repr

/-- Environment of `create_or_resume_run`: the user lookup, the existing
active run row if any, the playlist fetch result, the rowid a fresh
insert would get, and the random source. -/
structure ResumeEnv where
  userId : Option Nat
  activeRow : Option RunRow
  fetchedTracks : List String
  newRunId : Nat
  rng : Nat → Nat

/-- The in-memory session registry `_sessions`, keyed by
`(spotify_user_id, playlist_id)`. -/
def Registry : Type :=
  String × String → Option ControllerSession

/-- Register (or replace) a session under a key. -/
def regSet (reg : Registry) (key : String × String) (s : ControllerSession) :
    Registry :=
  fun k => if k = key then some s else reg k

/-- The `create_or_resume_run` — find an active controller run or create a new
one, then build a fresh `ControllerSession` and register it (replacing any
session already stored under the key). -/
def create_or_resume_run (env : ResumeEnv) (spotify_user_id playlist_id : String)
    (reg : Registry) : Except String (ControllerSession × Registry) :=
  match env.userId with
  | none => Except.error ("User not found in DB")
  | some user_id =>
    let build := fun (run_id : Nat) (order : List String) (cursor queued : Nat) =>
      ({ run_id, user_id, spotify_user_id, playlist_id, order, cursor,
         queued_until_index := queued, state := ControllerState.idle,
         device_id := none, error_message := none, current_track_name := none,
         current_artist := none, current_album_art := none } : ControllerSession)
    match env.activeRow with
    | some row =>
      let s := build row.run_id row.shuffled_order row.cursor row.queued_until_index
      Except.ok (s, regSet reg (spotify_user_id, playlist_id) s)
    | none =>
      if env.fetchedTracks = [] then
        Except.error ("Playlist is empty or inaccessible")
      else
        let order := shuffle_order env.fetchedTracks env.rng
        let s := build env.newRunId order 0 0
        Except.ok (s, regSet reg (spotify_user_id, playlist_id) s)

/-- Environment of the `/controller/start` route: the resume step's inputs
plus the playback start's inputs. -/
structure StartCmdEnv where
  resume : ResumeEnv
  playback : StartEnv

/-- The `POST /controller/start` handler (controller_routes.py): run
`create_or_resume_run`, then `start_playback` on the resulting session,
and answer with its status dict.  The session object is shared with the
registry (Python aliasing), so the registry ends up holding the session as
mutated by `start_playback`. -/
def start_command (B : Nat) (env : StartCmdEnv) (uid pid : String)
    (reg : Registry) :
    Except String (ControllerSession × Registry × List SpCall × List (String × JValue)) :=
  match create_or_resume_run env.resume uid pid reg with
  | Except.error e => Except.error e
  | Except.ok (s, reg1) =>
    let r := start_playback B env.playback s
    Except.ok (r.1, regSet reg1 (uid, pid) r.1, r.2, to_status_dict r.1)

/-! ## Benign environments (every remote call succeeds) -/

/-- All enqueue responses are 2xx. -/
def BenignEnqs (enq : Nat → Nat) : Prop :=
  ∀ i, status_ok (enq i)

/-- The play call returns a 2xx response (no premium error, no failure). -/
def BenignPlay : PlayOutcome → Prop
  | PlayOutcome.resp st => status_ok st
  | PlayOutcome.premium _ => False

/-- A start environment in which a device is found and every remote call
succeeds. -/
def BenignStart (env : StartEnv) : Prop :=
  (truthy (find_active_device env.devices)).isSome ∧ BenignPlay env.play
    ∧ BenignEnqs env.enq

/-- Operation environments in which every remote call succeeds. -/
def BenignOp : ControllerOp → Prop
  | ControllerOp.poll env => BenignPlay env.play ∧ BenignEnqs env.enq
  | ControllerOp.next env => BenignPlay env.play ∧ BenignEnqs env.enq
  | ControllerOp.stop => True
  | ControllerOp.start env => BenignStart env

/-- Whether a remote call is a `PUT /me/player/play` (hard-play) call. -/
def SpCall.isPlayCall : SpCall → Bool
  | SpCall.play _ _ => true
  | _ => false

/-- The inductive invariant maintained by benign runs: the cursor is in
bounds and the queue buffer reaches `min(cursor + B, |order| - 1)`. -/
def SessionInv (B : Nat) (s : ControllerSession) : Prop :=
  s.cursor < s.order.length ∧ s.queued_until_index < s.order.length ∧
    min (s.cursor + B) (s.order.length - 1) ≤ s.queued_until_index

/-! ## Lemmas about the shuffle engine -/

/-- A swap of two in-bounds positions is a permutation. -/
theorem swapIdx_perm {l : List String} {i j : Nat} (hi : i < l.length)
    (hj : j < l.length) : List.Perm (swapIdx l i j) l := by
  unfold swapIdx
  rw [List.getD_eq_getElem l ("") hi, List.getD_eq_getElem l ("") hj]
  rw [List.perm_iff_count]
  intro b
  have hj2 : j < (l.set i l[j]).length := by simpa using hj
  rw [List.count_set _ _ _ _ hj2, List.count_set _ _ _ _ hi]
  rw [List.getElem_set]
  simp only [ite_self]
  have hA : (if (l[i] == b) = true then 1 else 0) ≤ List.count b l := by
    split
    · next hbeq =>
      have : b ∈ l := by
        have := beq_iff_eq.mp hbeq
        exact this ▸ List.getElem_mem hi
      exact List.count_pos_iff.mpr this
    · exact Nat.zero_le _
  omega

/-- The Fisher–Yates loop permutes its input when the top index is in
bounds. -/
theorem fyLoop_perm (rng : Nat → Nat) :
    ∀ (i : Nat) (l : List String) (t : Nat), i < l.length →
      List.Perm (fyLoop rng l i t) l := by
  intro i
  induction i with
  | zero => intro l t _; simp [fyLoop]
  | succ i ih =>
    intro l t h
    have hj : rng t % (i + 2) < l.length :=
      Nat.lt_of_lt_of_le (Nat.mod_lt _ (by omega)) (by omega)
    have hswap : List.Perm (swapIdx l (i + 1) (rng t % (i + 2))) l :=
      swapIdx_perm h hj
    have hlen : (swapIdx l (i + 1) (rng t % (i + 2))).length = l.length :=
      hswap.length_eq
    exact List.Perm.trans (ih _ (t + 1) (by omega)) hswap

/-- The `fisher_yates_shuffle` returns a permutation of its input, whatever
the randomness source. -/
theorem fisher_yates_perm (items : List String) (rng : Nat → Nat) (t0 : Nat) :
    List.Perm (fisher_yates_shuffle items rng t0) items := by
  unfold fisher_yates_shuffle
  match items with
  | [] => simp [fyLoop]
  | a :: rest => exact fyLoop_perm rng _ _ _ (by simp)

/-- Every iteration of the guard loop returns a permutation of the input. -/
theorem guardLoop_perm (uris prev : List String) (thr : ℚ) (w : Nat)
    (rng : Nat → Nat) :
    ∀ (f t : Nat), List.Perm (guardLoop uris prev thr w rng (f + 1) t) uris := by
  intro f
  induction f with
  | zero => intro t; exact fisher_yates_perm uris rng t
  | succ f ih =>
    intro t
    show List.Perm (guardLoop uris prev thr w rng (f + 2) t) uris
    rw [guardLoop]
    split
    · exact fisher_yates_perm uris rng t
    · exact ih _

/-- The `shuffle_with_guard` returns a permutation of its input. -/
theorem shuffle_with_guard_perm (uris : List String)
    (previous_order : Option (List String)) (thr : ℚ) (w mr : Nat)
    (rng : Nat → Nat) (t0 : Nat) :
    List.Perm (shuffle_with_guard uris previous_order thr w mr rng t0) uris := by
  unfold shuffle_with_guard
  match previous_order with
  | none => exact fisher_yates_perm uris rng t0
  | some prev => exact guardLoop_perm uris prev thr w rng mr t0

/-- The URIs kept by the dedup loop are distinct and disjoint from `seen`. -/
theorem dedupGo_uri_nodup (tracks : List Track) :
    ∀ seen : List String,
      ((dedupGo seen tracks).map Track.uri).Nodup ∧
        ∀ u ∈ (dedupGo seen tracks).map Track.uri, u ∉ seen := by
  induction tracks with
  | nil => intro seen; simp [dedupGo]
  | cons t ts ih =>
    intro seen
    by_cases h : t.uri ∈ seen
    · simpa [dedupGo, h] using ih seen
    · obtain ⟨h1, h2⟩ := ih (t.uri :: seen)
      have hhead : t.uri ∉ List.map Track.uri (dedupGo (t.uri :: seen) ts) := by
        intro hmem
        exact (h2 _ hmem) (List.mem_cons_self _ _)
      constructor
      · simp only [dedupGo, if_neg h, List.map_cons, List.nodup_cons]
        exact ⟨hhead, h1⟩
      · simp only [dedupGo, if_neg h, List.map_cons]
        intro u hu
        rcases List.mem_cons.mp hu with hu1 | hu2
        · rw [hu1]; exact h
        · intro hs
          exact (h2 _ hu2) (List.mem_cons_of_mem _ hs)

/-- The deduplicated URI list has no duplicates. -/
theorem dedup_by_uri_nodup (tracks : List Track) :
    ((dedup_by_uri tracks).map Track.uri).Nodup :=
  (dedupGo_uri_nodup tracks []).1

/-- Claim C1: for every input track sequence and every randomness source,
the URI list returned by `prepare_shuffled_run` (filter, then dedup, then
Fisher–Yates with guard) is a permutation of the URIs of `dedup_by_uri`
applied to the valid tracks of `filter_valid_tracks`; in particular it has
the same elements with the same multiplicities and, being deduplicated,
every multiplicity is 1 (the list is duplicate-free). -/
theorem prepare_shuffled_run_perm (tracks : List Track)
    (previous_order : Option (List String)) (rng : Nat → Nat) (t0 : Nat) :
    List.Perm (prepare_shuffled_run tracks previous_order rng t0).1
        ((dedup_by_uri (filter_valid_tracks tracks).1).map Track.uri)
      ∧ (prepare_shuffled_run tracks previous_order rng t0).1.Nodup := by
  have hperm :
      List.Perm (prepare_shuffled_run tracks previous_order rng t0).1
        ((dedup_by_uri (filter_valid_tracks tracks).1).map Track.uri) :=
    shuffle_with_guard_perm _ previous_order _ _ _ rng t0
  exact ⟨hperm, hperm.nodup_iff.mpr (dedup_by_uri_nodup _)⟩

/-- The guard loop with `f + 1` iterations returns the first acceptable
candidate, or the last one if none is acceptable. -/
theorem guardLoop_spec (uris prev : List String) (thr : ℚ) (w : Nat)
    (rng : Nat → Nat) :
    ∀ (f t : Nat), ∃ k, k ≤ f ∧
      guardLoop uris prev thr w rng (f + 1) t
          = fisher_yates_shuffle uris rng (t + k * (uris.length - 1)) ∧
      (∀ m, m < k →
        thr < first_n_similarity
          (fisher_yates_shuffle uris rng (t + m * (uris.length - 1))) prev w) ∧
      (first_n_similarity
          (fisher_yates_shuffle uris rng (t + k * (uris.length - 1))) prev w ≤ thr
        ∨ k = f) := by
  intro f
  induction f with
  | zero =>
    intro t
    refine ⟨0, le_refl 0, by simp [guardLoop], by omega, Or.inr rfl⟩
  | succ f ih =>
    intro t
    show ∃ k, k ≤ f + 1 ∧ guardLoop uris prev thr w rng (f + 2) t = _ ∧ _ ∧ _
    rw [guardLoop]
    split
    · next hgood =>
      refine ⟨0, Nat.zero_le _, by simp, by omega, Or.inl ?_⟩
      simpa using hgood
    · next hbad =>
      obtain ⟨k', hk', heq, hearlier, hlast⟩ := ih (t + (uris.length - 1))
      have harith : ∀ m : Nat,
          t + (uris.length - 1) + m * (uris.length - 1)
            = t + (m + 1) * (uris.length - 1) := by
        intro m; ring
      refine ⟨k' + 1, by omega, by rw [heq, harith], ?_, ?_⟩
      · intro m hm
        match m with
        | 0 =>
          simpa using lt_of_not_le hbad
        | m' + 1 =>
          have := hearlier m' (by omega)
          rwa [harith] at this
      · rcases hlast with hgood | hlastk
        · exact Or.inl (by rwa [harith] at hgood)
        · exact Or.inr (by omega)

/-- Claim C6: for every `uris` list, previous order and randomness source,
`shuffle_with_guard` (defaults: threshold 0.5, window 10, 5 retries)
returns the first generated candidate whose positional-match fraction with
the previous order over the first 10 elements (`_first_n_similarity`) is
at most 0.5; earlier candidates all exceeded the threshold, and when all
six candidates exceed it the last one (attempt 5) is returned anyway. -/
theorem shuffle_with_guard_first_acceptable (uris prev : List String)
    (rng : Nat → Nat) (t0 : Nat) :
    ∃ k, k ≤ 5 ∧
      shuffle_with_guard uris (some prev) (1/2) 10 5 rng t0
          = guardCandidate uris rng t0 k ∧
      (∀ m, m < k →
        1/2 < first_n_similarity (guardCandidate uris rng t0 m) prev 10) ∧
      (first_n_similarity (guardCandidate uris rng t0 k) prev 10 ≤ 1/2 ∨ k = 5) := by
  obtain ⟨k, hk, heq, hearlier, hlast⟩ :=
    guardLoop_spec uris prev (1/2) 10 rng 5 t0
  exact ⟨k, hk, heq, hearlier, hlast⟩

/-! ## Lemmas about export / import -/

/-- Pydantic list-of-strings validation round-trips the dump of a list. -/
theorem asStrList_map_str (l : List String) :
    asStrList (some (JValue.arr (l.map JValue.str))) = some l := by
  simp only [asStrList]
  induction l with
  | nil => rfl
  | cons x xs ih => simp [strListOf, ih]

/-- A dumped string list contains no objects at all. -/
theorem tokenFreeList_map_str (l : List String) :
    tokenFreeList (l.map JValue.str) = true := by
  induction l with
  | nil => rfl
  | cons x xs ih => simp [tokenFreeList, tokenFreeVal, ih]

/-- The serialization of any `ExportPayload` binds only the six whitelisted
keys, and no token-like key occurs anywhere inside it. -/
theorem payload_dump_tokenFree (p : ExportPayload) :
    tokenFreeVal (JValue.obj (payload_dump p)) = true := by
  simp [payload_dump, tokenFreeVal, tokenFreeObj, forbiddenKeys,
    tokenFreeList_map_str p.shuffled_order]

/-- Claim C7: `import_run (export_run run)` restores the whitelisted fields
`playlist_id`, `mode`, `shuffled_order`, `cursor`, `status` (and the
`exported_at` timestamp) exactly; and whenever `import_run` accepts any
JSON object, the resulting payload — whose serialization binds only the
six whitelisted keys, with string/int/string-array values — contains no
field named `access_token`, `refresh_token`, `token_data` or `secret_key`
at any nesting depth. -/
theorem export_import_roundtrip :
    (∀ (playlist_id mode : String) (shuffled_order : List String)
        (cursor : Int) (status exported_at : String),
      import_run (export_run playlist_id mode shuffled_order cursor status exported_at)
        = Except.ok ⟨playlist_id, mode, shuffled_order, cursor, status, exported_at⟩)
    ∧ (∀ (data : List (String × JValue)) (p : ExportPayload),
        import_run data = Except.ok p →
          tokenFreeVal (JValue.obj (payload_dump p)) = true) := by
  constructor
  · intro pid mode ord cur st t
    simp only [export_run, payload_dump]
    simp +decide [import_run, forbiddenKeys, popKey, jget, asStr, asInt,
      List.lookup, List.filter, asStrList_map_str]
  · intro data p _
    exact payload_dump_tokenFree p

/-- Witness for C7: a concrete import that carried an `access_token` field
succeeds, and the accepted payload is token-free. -/
theorem export_import_roundtrip_witness :
    import_run
        [("playlist_id", JValue.str ("pl1")), ("mode", JValue.str ("controller")),
         ("shuffled_order", JValue.arr [JValue.str ("spotify:track:a")]),
         ("cursor", JValue.int 3), ("status", JValue.str ("active")),
         ("access_token", JValue.str ("SECRET"))]
      = Except.ok ⟨"pl1", "controller", ["spotify:track:a"], 3, "active", ""⟩
    ∧ tokenFreeVal (JValue.obj (payload_dump
        ⟨"pl1", "controller", ["spotify:track:a"], 3, "active", ""⟩)) = true := by
  have himp : import_run
      [("playlist_id", JValue.str ("pl1")), ("mode", JValue.str ("controller")),
       ("shuffled_order", JValue.arr [JValue.str ("spotify:track:a")]),
       ("cursor", JValue.int 3), ("status", JValue.str ("active")),
       ("access_token", JValue.str ("SECRET"))]
      = Except.ok ⟨"pl1", "controller", ["spotify:track:a"], 3, "active", ""⟩ := by
    rfl
  exact ⟨himp, export_import_roundtrip.2 _ _ himp⟩

/-! ## Lemmas about the retry loop -/

/-- The loop never issues more attempts than it has fuel. -/
theorem requestLoop_attempts_le (env : RequestEnv) :
    ∀ (fuel attempt : Nat), (requestLoop env attempt fuel).attempts ≤ fuel := by
  intro fuel
  induction fuel with
  | zero => intro a; simp [requestLoop]
  | succ f ih =>
    intro a
    rw [requestLoop]
    split
    · simpa using Nat.add_le_add_right (ih (a + 1)) 1
    · split
      · simpa using Nat.add_le_add_right (ih (a + 1)) 1
      · split
        · simpa using Nat.add_le_add_right (ih (a + 1)) 1
        · split
          · simp
          · split <;> simp

/-- Unfolding of the loop on a rate-limited response. -/
theorem requestLoop_429_step (env : RequestEnv) (attempt fuel : Nat)
    (h : (env.resp attempt).status = 429) :
    requestLoop env attempt (fuel + 1)
      = ⟨(requestLoop env (attempt + 1) fuel).outcome,
         (requestLoop env (attempt + 1) fuel).attempts + 1,
         ((env.resp attempt).retry_after : ℚ)
           :: (requestLoop env (attempt + 1) fuel).sleeps⟩ := by
  rw [requestLoop]
  simp [h]

/-- The loop issues at least one attempt whenever it has fuel. -/
theorem requestLoop_attempts_pos (env : RequestEnv) (attempt f : Nat) :
    1 ≤ (requestLoop env attempt (f + 1)).attempts := by
  rw [requestLoop]
  split
  · simp
  · split
    · simp
    · split
      · simp
      · split
        · simp
        · split <;> simp

/-- Claim C8: a 429 followed by a 200 succeeds with exactly two attempts;
a 429 causes a sleep of `Retry-After` plus a jitter within `[0, 0.5]` s
(the implementation's jitter is always `0`) and a retry; at most 3 total
attempts are made, and if every attempt is rate-limited the call fails
(502) after exactly 3 attempts. -/
theorem sp_request_rate_limit_retry (env : RequestEnv) :
    ((env.resp 1).status = 429 → (env.resp 2).status = 200 →
      (sp_request env).outcome = ReqOutcome.ok 200 ∧ (sp_request env).attempts = 2)
    ∧ ((env.resp 1).status = 429 →
      ∃ jitter : ℚ, 0 ≤ jitter ∧ jitter ≤ 1/2 ∧
        (sp_request env).sleeps.head?
            = some (((env.resp 1).retry_after : ℚ) + jitter)
        ∧ 2 ≤ (sp_request env).attempts)
    ∧ (sp_request env).attempts ≤ 3
    ∧ ((env.resp 1).status = 429 → (env.resp 2).status = 429 →
        (env.resp 3).status = 429 →
      (sp_request env).outcome = ReqOutcome.httpError 502
        ∧ (sp_request env).attempts = 3) := by
  refine ⟨?_, ?_, ?_, ?_⟩
  · intro h1 h2
    simp [sp_request, requestLoop, h1, h2]
  · intro h1
    have hstep := requestLoop_429_step env 1 2 h1
    refine ⟨0, le_refl 0, by norm_num, ?_, ?_⟩
    · show (requestLoop env 1 (2 + 1)).sleeps.head? = _
      rw [hstep]
      simp
    · show 2 ≤ (requestLoop env 1 (2 + 1)).attempts
      have hpos : 1 ≤ (requestLoop env 2 2).attempts := by
        simpa using requestLoop_attempts_pos env 2 1
      have hatt : (requestLoop env 1 (2 + 1)).attempts
          = (requestLoop env 2 2).attempts + 1 := by
        rw [hstep]
      omega
  · exact requestLoop_attempts_le env 3 1
  · intro h1 h2 h3
    simp [sp_request, requestLoop, h1, h2, h3]

/-- Witness for C8 at a concrete environment: `429 Retry-After: 0` then
`200` — the call succeeds with exactly two attempts after a zero sleep. -/
theorem sp_request_rate_limit_retry_witness :
    (sp_request ⟨fun t => if t = 1 then ⟨429, 0⟩ else ⟨200, 2⟩⟩).outcome
        = ReqOutcome.ok 200
      ∧ (sp_request ⟨fun t => if t = 1 then ⟨429, 0⟩ else ⟨200, 2⟩⟩).attempts = 2 := by
  exact (sp_request_rate_limit_retry ⟨fun t => if t = 1 then ⟨429, 0⟩ else ⟨200, 2⟩⟩).1
    (by norm_num) (by norm_num)

/-! ## Lemmas about the status snapshot -/

/-- Claim C10: the status snapshot serializer is total — it never indexes
out of bounds: it yields exactly the nine fields `state`, `cursor`,
`total_tracks`, `current_track_uri`, `current_track_name`,
`current_artist`, `current_album_art`, `error_message`, `device_id`, with
`current_track_uri = order[cursor]` exactly when `cursor < |order|` and
null when `cursor ≥ |order|`, and `total_tracks = |order|`. -/
theorem to_status_dict_total (s : ControllerSession) :
    (to_status_dict s).map Prod.fst
        = ["state", "cursor", "total_tracks", "current_track_uri",
           "current_track_name", "current_artist", "current_album_art",
           "error_message", "device_id"]
      ∧ (s.cursor < s.order.length →
          jget (to_status_dict s) "current_track_uri"
            = some (JValue.str (s.order.getD s.cursor (""))))
      ∧ (s.order.length ≤ s.cursor →
          jget (to_status_dict s) "current_track_uri" = some JValue.null)
      ∧ jget (to_status_dict s) "total_tracks"
          = some (JValue.int (s.order.length : Int)) := by
  refine ⟨rfl, ?_, ?_, ?_⟩
  · intro h
    simp +decide [to_status_dict, jget, List.lookup, h]
  · intro h
    have h' : ¬ s.cursor < s.order.length := by omega
    simp +decide [to_status_dict, jget, List.lookup, h']
  · simp +decide [to_status_dict, jget, List.lookup]

/-- Witness for C10 at a concrete session (cursor in bounds). -/
theorem to_status_dict_total_witness :
    jget (to_status_dict
        { run_id := 1, user_id := 1, spotify_user_id := "u", playlist_id := "p",
          order := ["spotify:track:a", "spotify:track:b"], cursor := 1,
          queued_until_index := 1, state := ControllerState.playing,
          device_id := none, error_message := none, current_track_name := none,
          current_artist := none, current_album_art := none }) "current_track_uri"
      = some (JValue.str ("spotify:track:b")) := by
  have h := (to_status_dict_total
    { run_id := 1, user_id := 1, spotify_user_id := "u", playlist_id := "p",
      order := ["spotify:track:a", "spotify:track:b"], cursor := 1,
      queued_until_index := 1, state := ControllerState.playing,
      device_id := none, error_message := none, current_track_name := none,
      current_artist := none, current_album_art := none }).2.1 (by norm_num)
  simpa using h

/-! ## Lemmas about the buffer fill -/

/-- Characterization of the fill loop: the calls issued are the prefix of
the index range up to and including the first failing index, and the final
`queued_until_index` is the last successful index (or unchanged when the
very first enqueue fails or the range is empty). -/
theorem fillLoop_char (order : List String) (enq : Nat → Nat) :
    ∀ (fuel i q : Nat),
      (fillLoop order enq i q fuel).2
          = ((List.range' i fuel).take
                (((List.range' i fuel).takeWhile
                  (fun j => status_ok (enq j))).length + 1)).map
              (fun j => SpCall.enqueue j (order.getD j ("")))
        ∧ (fillLoop order enq i q fuel).1
            = (if ((List.range' i fuel).takeWhile
                  (fun j => status_ok (enq j))).length = 0 then q
               else i + ((List.range' i fuel).takeWhile
                  (fun j => status_ok (enq j))).length - 1) := by
  intro fuel
  induction fuel with
  | zero => intro i q; simp [fillLoop]
  | succ f ih =>
    intro i q
    obtain ⟨ih2, ih1⟩ := ih (i + 1) i
    by_cases hok : status_ok (enq i)
    · constructor
      · rw [fillLoop]
        simp [hok, List.range'_succ, List.takeWhile_cons, ih2]
      · rw [fillLoop]
        simp [hok, List.range'_succ, List.takeWhile_cons, ih1]
    · constructor
      · rw [fillLoop]
        simp [hok, List.range'_succ, List.takeWhile_cons]
      · rw [fillLoop]
        simp [hok, List.range'_succ, List.takeWhile_cons]

/-- Characterization of `_fill_buffer`, shared by the claim proofs below:
calls, final `queued_until_index`, untouched fields, and the persistence
write. -/
theorem fill_buffer_char (B : Nat) (enq : Nat → Nat) (s : ControllerSession) :
    (fill_buffer B enq s).2
        = (((List.range' (max s.queued_until_index s.cursor + 1)
              (min (s.cursor + B) (s.order.length - 1) + 1
                - (max s.queued_until_index s.cursor + 1))).take
            (((List.range' (max s.queued_until_index s.cursor + 1)
              (min (s.cursor + B) (s.order.length - 1) + 1
                - (max s.queued_until_index s.cursor + 1))).takeWhile
                (fun j => status_ok (enq j))).length + 1)).map
            (fun j => SpCall.enqueue j (s.order.getD j (""))))
          ++ [SpCall.persist s.cursor (fill_buffer B enq s).1.queued_until_index]
      ∧ (fill_buffer B enq s).1.queued_until_index
          = (if (((List.range' (max s.queued_until_index s.cursor + 1)
                (min (s.cursor + B) (s.order.length - 1) + 1
                  - (max s.queued_until_index s.cursor + 1))).takeWhile
                  (fun j => status_ok (enq j))).length) = 0
             then s.queued_until_index
             else max s.queued_until_index s.cursor + 1
                + (((List.range' (max s.queued_until_index s.cursor + 1)
                  (min (s.cursor + B) (s.order.length - 1) + 1
                    - (max s.queued_until_index s.cursor + 1))).takeWhile
                    (fun j => status_ok (enq j))).length) - 1) := by
  obtain ⟨h2, h1⟩ := fillLoop_char s.order enq
    (min (s.cursor + B) (s.order.length - 1) + 1
      - (max s.queued_until_index s.cursor + 1))
    (max s.queued_until_index s.cursor + 1) s.queued_until_index
  constructor
  · show (fillLoop s.order enq _ _ _).2 ++ _ = _
    rw [h2]
    rfl
  · exact h1

/-- The cursor, order and state are untouched by a buffer fill. -/
theorem fill_buffer_same (B : Nat) (enq : Nat → Nat) (s : ControllerSession) :
    (fill_buffer B enq s).1.cursor = s.cursor
      ∧ (fill_buffer B enq s).1.order = s.order
      ∧ (fill_buffer B enq s).1.state = s.state
      ∧ (fill_buffer B enq s).1.device_id = s.device_id := by
  exact ⟨rfl, rfl, rfl, rfl⟩

/-- A buffer fill issues no play call. -/
theorem fill_buffer_no_play (B : Nat) (enq : Nat → Nat) (s : ControllerSession) :
    (fill_buffer B enq s).2.filter SpCall.isPlayCall = [] := by
  rw [(fill_buffer_char B enq s).1]
  rw [List.filter_append]
  rw [List.filter_map]
  simp [SpCall.isPlayCall, Function.comp_def]

/-- Claim C4: for every session with buffer size `B`, a buffer fill
enqueues exactly the tracks at indices `max(queued_until_index, cursor)+1`
through `min(cursor + B, |order| − 1)` in increasing order (the calls are
the consecutive index range, cut at the first non-2xx response, which is
the last enqueue issued); on such a failure `queued_until_index` stays at
the last successfully enqueued index (unchanged if none succeeded); the
final cursor and `queued_until_index` are persisted; and no index at or
below the prior `queued_until_index` is ever re-enqueued. -/
theorem fill_buffer_spec (B : Nat) (enq : Nat → Nat) (s : ControllerSession) :
    (fill_buffer B enq s).2
        = (((List.range' (max s.queued_until_index s.cursor + 1)
              (min (s.cursor + B) (s.order.length - 1) + 1
                - (max s.queued_until_index s.cursor + 1))).take
            (((List.range' (max s.queued_until_index s.cursor + 1)
              (min (s.cursor + B) (s.order.length - 1) + 1
                - (max s.queued_until_index s.cursor + 1))).takeWhile
                (fun j => status_ok (enq j))).length + 1)).map
            (fun j => SpCall.enqueue j (s.order.getD j (""))))
          ++ [SpCall.persist s.cursor (fill_buffer B enq s).1.queued_until_index]
      ∧ (fill_buffer B enq s).1.queued_until_index
          = (if (((List.range' (max s.queued_until_index s.cursor + 1)
                (min (s.cursor + B) (s.order.length - 1) + 1
                  - (max s.queued_until_index s.cursor + 1))).takeWhile
                  (fun j => status_ok (enq j))).length) = 0
             then s.queued_until_index
             else max s.queued_until_index s.cursor + 1
                + (((List.range' (max s.queued_until_index s.cursor + 1)
                  (min (s.cursor + B) (s.order.length - 1) + 1
                    - (max s.queued_until_index s.cursor + 1))).takeWhile
                    (fun j => status_ok (enq j))).length) - 1)
      ∧ (∀ j u, SpCall.enqueue j u ∈ (fill_buffer B enq s).2 →
          s.queued_until_index < j ∧ j ≤ min (s.cursor + B) (s.order.length - 1)
            ∧ u = s.order.getD j ("")) := by
  obtain ⟨h2, h1⟩ := fill_buffer_char B enq s
  refine ⟨h2, h1, ?_⟩
  intro j u hmem
  rw [h2] at hmem
  rcases List.mem_append.mp hmem with hmem | hmem
  · obtain ⟨j', hj', heq⟩ := List.mem_map.mp hmem
    have heq' : SpCall.enqueue j' (s.order.getD j' ("")) = SpCall.enqueue j u := heq
    injection heq' with hj hu
    have hj2 : j' ∈ List.range' (max s.queued_until_index s.cursor + 1)
        (min (s.cursor + B) (s.order.length - 1) + 1
          - (max s.queued_until_index s.cursor + 1)) :=
      List.take_subset _ _ hj'
    have hj3 := List.mem_range'_1.mp hj2
    refine ⟨by omega, by omega, ?_⟩
    rw [← hu, ← hj]
  · simp at hmem

/-- Witness for C4 at a concrete session: buffer size 5, ten tracks,
cursor 0, enqueue of index 3 failing — indices 1, 2, 3 are called, and
`queued_until_index` lands on 2, the last success. -/
theorem fill_buffer_spec_witness :
    (fill_buffer 5 (fun i => if i = 3 then 500 else 204)
        { run_id := 1, user_id := 1, spotify_user_id := "u", playlist_id := "p",
          order := ["t0", "t1", "t2", "t3", "t4", "t5", "t6", "t7", "t8", "t9"],
          cursor := 0, queued_until_index := 0,
          state := ControllerState.playing, device_id := none,
          error_message := none, current_track_name := none,
          current_artist := none, current_album_art := none }).1.queued_until_index
      = 2
    ∧ (3 : Nat) ≤ min (0 + 5) (10 - 1) := by
  have h := (fill_buffer_spec 5 (fun i => if i = 3 then 500 else 204)
    { run_id := 1, user_id := 1, spotify_user_id := "u", playlist_id := "p",
      order := ["t0", "t1", "t2", "t3", "t4", "t5", "t6", "t7", "t8", "t9"],
      cursor := 0, queued_until_index := 0,
      state := ControllerState.playing, device_id := none,
      error_message := none, current_track_name := none,
      current_artist := none, current_album_art := none }).2.1
  refine ⟨?_, by norm_num⟩
  rw [h]
  decide

/-! ## Lemmas about the poll cycle -/

/-- The scan predicate of the multi-skip loop is false at a non-matching
offset. -/
theorem skip_pred_false {order : List String} {c m : Nat} {uri : String}
    (h : ¬(c + m < order.length ∧ uri = order.getD (c + m) "")) :
    ¬((decide (c + m < order.length) && (uri == order.getD (c + m) "")) = true) := by
  intro htrue
  rw [Bool.and_eq_true, decide_eq_true_iff, beq_iff_eq] at htrue
  exact h htrue

/-- The scan predicate of the multi-skip loop is true at a matching
offset. -/
theorem skip_pred_true {order : List String} {c m : Nat} {uri : String}
    (h1 : c + m < order.length) (h2 : uri = order.getD (c + m) "") :
    (decide (c + m < order.length) && (uri == order.getD (c + m) "")) = true := by
  rw [Bool.and_eq_true, decide_eq_true_iff, beq_iff_eq]
  exact ⟨h1, h2⟩

/-- One scan step finding a match. -/
theorem find_skip_pos (order : List String) (c : Nat) (uri : String)
    (a : Nat) (l : List Nat)
    (h1 : c + a < order.length) (h2 : uri = order.getD (c + a) "") :
    List.find?
        (fun k => decide (c + k < order.length) && (uri == order.getD (c + k) ""))
        (a :: l)
      = some a :=
  List.find?_cons_of_pos l (skip_pred_true h1 h2)

/-- One scan step skipping a non-match. -/
theorem find_skip_neg (order : List String) (c : Nat) (uri : String)
    (a : Nat) (l : List Nat)
    (h : ¬(c + a < order.length ∧ uri = order.getD (c + a) "")) :
    List.find?
        (fun k => decide (c + k < order.length) && (uri == order.getD (c + k) ""))
        (a :: l)
      = List.find?
        (fun k => decide (c + k < order.length) && (uri == order.getD (c + k) "")) l :=
  List.find?_cons_of_neg l (skip_pred_false h)

/-- The multi-skip scan returns the first matching offset in `2..5`. -/
theorem firstSkipMatch_eq_some (order : List String) (c : Nat) (uri : String)
    (k : Nat) (hk2 : 2 ≤ k) (hk5 : k ≤ 5)
    (hin : c + k < order.length) (hmatch : uri = order.getD (c + k) "")
    (hmin : ∀ m, 2 ≤ m → m < k →
      ¬(c + m < order.length ∧ uri = order.getD (c + m) "")) :
    firstSkipMatch order c uri = some k := by
  unfold firstSkipMatch
  have hr : List.range' 2 4 = [2, 3, 4, 5] := rfl
  rw [hr]
  interval_cases k
  · rw [find_skip_pos order c uri 2 _ hin hmatch]
  · rw [find_skip_neg order c uri 2 _ (hmin 2 (by norm_num) (by norm_num)),
      find_skip_pos order c uri 3 _ hin hmatch]
  · rw [find_skip_neg order c uri 2 _ (hmin 2 (by norm_num) (by norm_num)),
      find_skip_neg order c uri 3 _ (hmin 3 (by norm_num) (by norm_num)),
      find_skip_pos order c uri 4 _ hin hmatch]
  · rw [find_skip_neg order c uri 2 _ (hmin 2 (by norm_num) (by norm_num)),
      find_skip_neg order c uri 3 _ (hmin 3 (by norm_num) (by norm_num)),
      find_skip_neg order c uri 4 _ (hmin 4 (by norm_num) (by norm_num)),
      find_skip_pos order c uri 5 _ hin hmatch]

/-- The multi-skip scan finds nothing when no offset in `2..5` matches. -/
theorem firstSkipMatch_eq_none (order : List String) (c : Nat) (uri : String)
    (hmin : ∀ m, 2 ≤ m → m ≤ 5 →
      ¬(c + m < order.length ∧ uri = order.getD (c + m) "")) :
    firstSkipMatch order c uri = none := by
  unfold firstSkipMatch
  have hr : List.range' 2 4 = [2, 3, 4, 5] := rfl
  rw [hr]
  rw [find_skip_neg order c uri 2 _ (hmin 2 (by norm_num) (by norm_num)),
    find_skip_neg order c uri 3 _ (hmin 3 (by norm_num) (by norm_num)),
    find_skip_neg order c uri 4 _ (hmin 4 (by norm_num) (by norm_num)),
    find_skip_neg order c uri 5 _ (hmin 5 (by norm_num) (by norm_num))]
  rfl

/-- Claim C2: for a session in state `playing` with `cursor < |order|` and
a poll response with status 200, `is_playing = true` and a current track
different from `order[cursor]`: (a) if the current track is
`order[cursor+1]` the handler advances the cursor by one, runs a buffer
fill, returns to `playing` and issues no play call; (b) else if the
current track first matches `order[cursor+k]` for an offset `k` in `2..5`
it advances the cursor by `k`, runs a buffer fill and returns to
`playing`, with no play call; (c) else the track is foreign: exactly one
hard-override play call for `order[cursor]` is issued, the cursor is
unchanged, and on a 2xx play response the state returns to `playing`. -/
theorem poll_playback_classification (B : Nat) (env : PollEnv)
    (s : ControllerSession) (it : PlaybackItem)
    (hplay : s.state = ControllerState.playing)
    (hcur : s.cursor < s.order.length)
    (hstatus : env.playback.status = 200)
    (hitem : env.playback.item = some it)
    (hplaying : env.playback.is_playing = true)
    (hne : it.uri ≠ s.order.getD s.cursor ("")) :
    (s.cursor + 1 < s.order.length → it.uri = s.order.getD (s.cursor + 1) "" →
      (poll_playback B env s).1.cursor = s.cursor + 1
        ∧ (poll_playback B env s).1.state = ControllerState.playing
        ∧ (poll_playback B env s).1.queued_until_index
            = (fill_buffer B env.enq
                { s with cursor := s.cursor + 1 }).1.queued_until_index
        ∧ (poll_playback B env s).2.filter SpCall.isPlayCall = [])
    ∧ (∀ k, 2 ≤ k → k ≤ 5 →
        ¬(s.cursor + 1 < s.order.length
            ∧ it.uri = s.order.getD (s.cursor + 1) "") →
        s.cursor + k < s.order.length → it.uri = s.order.getD (s.cursor + k) "" →
        (∀ m, 2 ≤ m → m < k →
          ¬(s.cursor + m < s.order.length
              ∧ it.uri = s.order.getD (s.cursor + m) "")) →
        (poll_playback B env s).1.cursor = s.cursor + k
          ∧ (poll_playback B env s).1.state = ControllerState.playing
          ∧ (poll_playback B env s).1.queued_until_index
              = (fill_buffer B env.enq
                  { s with cursor := s.cursor + k }).1.queued_until_index
          ∧ (poll_playback B env s).2.filter SpCall.isPlayCall = [])
    ∧ (¬(s.cursor + 1 < s.order.length
            ∧ it.uri = s.order.getD (s.cursor + 1) "") →
        (∀ m, 2 ≤ m → m ≤ 5 →
          ¬(s.cursor + m < s.order.length
              ∧ it.uri = s.order.getD (s.cursor + m) "")) →
        (poll_playback B env s).2.filter SpCall.isPlayCall
            = [SpCall.play [s.order.getD s.cursor ("")] (truthy s.device_id)]
          ∧ (poll_playback B env s).1.cursor = s.cursor
          ∧ (BenignPlay env.play →
              (poll_playback B env s).1.state = ControllerState.playing)) := by
  have h0 : ¬ (s.order.length ≤ s.cursor) := by omega
  have h1 : ¬ (env.playback.status = 204 ∨ env.playback.status ≠ 200) := by
    rw [hstatus]; norm_num
  have h2 : ¬ (env.playback.is_playing = false) := by rw [hplaying]; simp
  refine ⟨?_, ?_, ?_⟩
  · intro hadv1 hadv2
    have hcond : s.cursor + 1 < s.order.length
        ∧ it.uri = s.order.getD (s.cursor + 1) "" := ⟨hadv1, hadv2⟩
    refine ⟨?adv1, ?adv2, ?adv3, ?adv4⟩
    case adv1 =>
      simp only [poll_playback, if_neg h0, if_neg h1, hitem, if_neg h2,
        if_neg hne, if_pos hcond]
      rfl
    case adv2 =>
      simp only [poll_playback, if_neg h0, if_neg h1, hitem, if_neg h2,
        if_neg hne, if_pos hcond]
    case adv3 =>
      simp only [poll_playback, if_neg h0, if_neg h1, hitem, if_neg h2,
        if_neg hne, if_pos hcond]
      rfl
    case adv4 =>
      simp only [poll_playback, if_neg h0, if_neg h1, hitem, if_neg h2,
        if_neg hne, if_pos hcond]
      simp [SpCall.isPlayCall, fill_buffer_no_play]
  · intro k hk2 hk5 hnadv hin hmatch hmin
    have hskip : firstSkipMatch s.order s.cursor it.uri = some k :=
      firstSkipMatch_eq_some s.order s.cursor it.uri k hk2 hk5 hin hmatch hmin
    refine ⟨?sk1, ?sk2, ?sk3, ?sk4⟩
    case sk1 =>
      simp only [poll_playback, if_neg h0, if_neg h1, hitem, if_neg h2,
        if_neg hne, if_neg hnadv, hskip]
      rfl
    case sk2 =>
      simp only [poll_playback, if_neg h0, if_neg h1, hitem, if_neg h2,
        if_neg hne, if_neg hnadv, hskip]
    case sk3 =>
      simp only [poll_playback, if_neg h0, if_neg h1, hitem, if_neg h2,
        if_neg hne, if_neg hnadv, hskip]
      rfl
    case sk4 =>
      simp only [poll_playback, if_neg h0, if_neg h1, hitem, if_neg h2,
        if_neg hne, if_neg hnadv, hskip]
      simp [SpCall.isPlayCall, fill_buffer_no_play]
  · intro hnadv hmin
    have hskip : firstSkipMatch s.order s.cursor it.uri = none :=
      firstSkipMatch_eq_none s.order s.cursor it.uri hmin
    refine ⟨?_, ?_, ?_⟩
    · simp only [poll_playback, if_neg h0, if_neg h1, hitem, if_neg h2,
        if_neg hne, if_neg hnadv, hskip, hard_override, if_neg h0]
      match env.play with
      | PlayOutcome.premium msg => simp [SpCall.isPlayCall]
      | PlayOutcome.resp st =>
        dsimp only
        by_cases hok : status_ok st
        · rw [if_neg (not_not_intro hok)]
          simp [SpCall.isPlayCall, fill_buffer_no_play]
        · rw [if_pos hok]
          simp [SpCall.isPlayCall]
    · simp only [poll_playback, if_neg h0, if_neg h1, hitem, if_neg h2,
        if_neg hne, if_neg hnadv, hskip, hard_override, if_neg h0]
      match env.play with
      | PlayOutcome.premium msg => rfl
      | PlayOutcome.resp st =>
        dsimp only
        by_cases hok : status_ok st
        · rw [if_neg (not_not_intro hok)]
          rfl
        · rw [if_pos hok]
    · intro hben
      simp only [poll_playback, if_neg h0, if_neg h1, hitem, if_neg h2,
        if_neg hne, if_neg hnadv, hskip, hard_override, if_neg h0]
      match hp : env.play with
      | PlayOutcome.premium msg =>
        rw [hp] at hben
        exact absurd hben (by simp [BenignPlay])
      | PlayOutcome.resp st =>
        rw [hp] at hben
        have hok : status_ok st = true := hben
        dsimp only
        rw [if_neg (not_not_intro hok)]

/-- Witness for C2 at the S3 scenario: `order = [t0, t1, t2]`, `cursor = 0`,
poll reports foreign uri `tX` — exactly one `play([t0])` call, cursor
unchanged, state back to `playing`. -/
theorem poll_playback_classification_witness :
    (poll_playback 5
        ⟨⟨200, some ⟨"tX", "Foreign", ["x"], []⟩, true⟩,
          PlayOutcome.resp 204, fun _ => 204⟩
        { run_id := 1, user_id := 1, spotify_user_id := "u", playlist_id := "p",
          order := ["t0", "t1", "t2"], cursor := 0, queued_until_index := 2,
          state := ControllerState.playing, device_id := none,
          error_message := none, current_track_name := none,
          current_artist := none, current_album_art := none }).2.filter
        SpCall.isPlayCall
      = [SpCall.play ["t0"] none]
    ∧ (poll_playback 5
        ⟨⟨200, some ⟨"tX", "Foreign", ["x"], []⟩, true⟩,
          PlayOutcome.resp 204, fun _ => 204⟩
        { run_id := 1, user_id := 1, spotify_user_id := "u", playlist_id := "p",
          order := ["t0", "t1", "t2"], cursor := 0, queued_until_index := 2,
          state := ControllerState.playing, device_id := none,
          error_message := none, current_track_name := none,
          current_artist := none, current_album_art := none }).1.cursor = 0
    ∧ (poll_playback 5
        ⟨⟨200, some ⟨"tX", "Foreign", ["x"], []⟩, true⟩,
          PlayOutcome.resp 204, fun _ => 204⟩
        { run_id := 1, user_id := 1, spotify_user_id := "u", playlist_id := "p",
          order := ["t0", "t1", "t2"], cursor := 0, queued_until_index := 2,
          state := ControllerState.playing, device_id := none,
          error_message := none, current_track_name := none,
          current_artist := none, current_album_art := none }).1.state
      = ControllerState.playing := by
  have h := (poll_playback_classification 5
    ⟨⟨200, some ⟨"tX", "Foreign", ["x"], []⟩, true⟩,
      PlayOutcome.resp 204, fun _ => 204⟩
    { run_id := 1, user_id := 1, spotify_user_id := "u", playlist_id := "p",
      order := ["t0", "t1", "t2"], cursor := 0, queued_until_index := 2,
      state := ControllerState.playing, device_id := none,
      error_message := none, current_track_name := none,
      current_artist := none, current_album_art := none }
    ⟨"tX", "Foreign", ["x"], []⟩
    rfl (by norm_num) rfl rfl rfl (by decide)).2.2
    (by decide)
    (by
      intro m h2 h5
      interval_cases m <;> decide)
  exact ⟨h.1, h.2.1, h.2.2 rfl⟩

/-! ## Cursor monotonicity -/

/-- The `_hard_override` never moves the cursor. -/
theorem hard_override_cursor (B : Nat) (play : PlayOutcome) (enq : Nat → Nat)
    (s : ControllerSession) :
    (hard_override B play enq s).1.cursor = s.cursor := by
  unfold hard_override
  dsimp only
  split
  · rfl
  · cases play with
    | premium msg => rfl
    | resp st =>
      dsimp only
      split
      · rfl
      · rfl

/-- The `start_playback` never moves the cursor. -/
theorem start_playback_cursor (B : Nat) (env : StartEnv) (s : ControllerSession) :
    (start_playback B env s).1.cursor = s.cursor := by
  obtain ⟨devs, pl, enq⟩ := env
  unfold start_playback
  dsimp only
  split
  · rfl
  · split
    · rfl
    · cases pl with
      | premium msg => rfl
      | resp st =>
        dsimp only
        split
        · rfl
        · rfl

/-- A poll cycle can only keep or increase the cursor. -/
theorem poll_playback_cursor_mono (B : Nat) (env : PollEnv)
    (s : ControllerSession) :
    s.cursor ≤ (poll_playback B env s).1.cursor := by
  unfold poll_playback
  dsimp only
  split
  · exact Nat.le_refl _
  · split
    · exact Nat.le_refl _
    · split
      · exact Nat.le_refl _
      · split
        · exact Nat.le_refl _
        · split
          · exact Nat.le_refl _
          · split
            · exact Nat.le_succ _
            · split
              · exact Nat.le_add_right _ _
              · next k heq =>
                simp only [hard_override_cursor]
                exact Nat.le_refl _

/-- The `manual_next` can only keep or increase the cursor. -/
theorem manual_next_cursor_mono (B : Nat) (env : NextEnv)
    (s : ControllerSession) :
    s.cursor ≤ (manual_next B env s).1.cursor := by
  obtain ⟨pl, enq⟩ := env
  unfold manual_next
  dsimp only
  split
  · exact Nat.le_refl _
  · cases pl with
    | premium msg => exact Nat.le_succ _
    | resp st =>
      dsimp only
      split
      · exact Nat.le_succ _
      · exact Nat.le_succ _

/-- Every controller operation keeps or increases the cursor. -/
theorem applyOp_cursor_mono (B : Nat) (op : ControllerOp)
    (s : ControllerSession) :
    s.cursor ≤ (applyOp B op s).1.cursor := by
  cases op with
  | poll env =>
    show s.cursor ≤
      (if s.state = ControllerState.playing then poll_playback B env s
       else (s, [])).1.cursor
    split
    · exact poll_playback_cursor_mono B env s
    · exact Nat.le_refl _
  | next env => exact manual_next_cursor_mono B env s
  | stop => exact Nat.le_refl _
  | start env => exact Nat.le_of_eq (start_playback_cursor B env s).symm

/-- Running more operations never lowers the cursor. -/
theorem runOps_cursor_mono (B : Nat) (ops : List ControllerOp)
    (s : ControllerSession) :
    s.cursor ≤ (runOps B ops s).cursor := by
  induction ops generalizing s with
  | nil => exact Nat.le_refl _
  | cons op rest ih =>
    exact Nat.le_trans (applyOp_cursor_mono B op s) (ih _)

/-- Splitting a run at a prefix. -/
theorem runOps_append (B : Nat) (l1 l2 : List ControllerOp)
    (s : ControllerSession) :
    runOps B (l1 ++ l2) s = runOps B l2 (runOps B l1 s) := by
  unfold runOps
  exact List.foldl_append _ _ _ _

/-- Claim C9: over every sequence of operations of a single run (poll
handling, manual next with its internal hard-override, stop, start), the
cursor never decreases — comparing the session at any two points of the
trace, the later cursor is at least the earlier one — and consequently
each cursor value is visited in one contiguous block, i.e. each index is
visited at most once. -/
theorem cursor_monotone_visits (B : Nat) (ops : List ControllerOp)
    (s : ControllerSession) :
    (∀ i j, i ≤ j →
      (runOps B (ops.take i) s).cursor ≤ (runOps B (ops.take j) s).cursor)
    ∧ (∀ i j k, i ≤ j → j ≤ k →
        (runOps B (ops.take i) s).cursor = (runOps B (ops.take k) s).cursor →
        (runOps B (ops.take j) s).cursor = (runOps B (ops.take i) s).cursor) := by
  have hmono : ∀ i j, i ≤ j →
      (runOps B (ops.take i) s).cursor ≤ (runOps B (ops.take j) s).cursor := by
    intro i j hij
    have hsplit : ops.take j = ops.take i ++ (ops.drop i).take (j - i) := by
      rw [← List.take_add]
      congr 1
      omega
    rw [hsplit, runOps_append]
    exact runOps_cursor_mono B _ _
  refine ⟨hmono, ?_⟩
  intro i j k hij hjk heq
  have h1 := hmono i j hij
  have h2 := hmono j k hjk
  omega

/-- Witness for C9 on a concrete two-operation trace (a manual next, then
a stop). -/
theorem cursor_monotone_visits_witness :
    ((runOps 5 ([ControllerOp.next ⟨PlayOutcome.resp 204, fun _ => 204⟩,
          ControllerOp.stop].take 0)
        { run_id := 1, user_id := 1, spotify_user_id := "u", playlist_id := "p",
          order := ["t0", "t1", "t2"], cursor := 0, queued_until_index := 2,
          state := ControllerState.playing, device_id := none,
          error_message := none, current_track_name := none,
          current_artist := none, current_album_art := none }).cursor
      ≤ (runOps 5 ([ControllerOp.next ⟨PlayOutcome.resp 204, fun _ => 204⟩,
          ControllerOp.stop].take 2)
        { run_id := 1, user_id := 1, spotify_user_id := "u", playlist_id := "p",
          order := ["t0", "t1", "t2"], cursor := 0, queued_until_index := 2,
          state := ControllerState.playing, device_id := none,
          error_message := none, current_track_name := none,
          current_artist := none, current_album_art := none }).cursor) := by
  exact (cursor_monotone_visits 5
    [ControllerOp.next ⟨PlayOutcome.resp 204, fun _ => 204⟩, ControllerOp.stop]
    { run_id := 1, user_id := 1, spotify_user_id := "u", playlist_id := "p",
      order := ["t0", "t1", "t2"], cursor := 0, queued_until_index := 2,
      state := ControllerState.playing, device_id := none,
      error_message := none, current_track_name := none,
      current_artist := none, current_album_art := none }).1 0 2 (by norm_num)

/-! ## The queue invariant under benign environments -/

/-- With all enqueues succeeding, the fill loop walks its whole range. -/
theorem fillLoop_benign (order : List String) (enq : Nat → Nat)
    (h : BenignEnqs enq) :
    ∀ (fuel i q : Nat), (fillLoop order enq i q (fuel + 1)).1 = i + fuel := by
  intro fuel
  induction fuel with
  | zero =>
    intro i q
    rw [fillLoop]
    simp [h i, fillLoop]
  | succ f ih =>
    intro i q
    rw [fillLoop]
    simp only [h i, if_true]
    rw [ih (i + 1) i]
    omega

/-- The cursor is untouched by a buffer fill. -/
theorem fill_buffer_cursor (B : Nat) (enq : Nat → Nat) (s : ControllerSession) :
    (fill_buffer B enq s).1.cursor = s.cursor := rfl

/-- The order is untouched by a buffer fill. -/
theorem fill_buffer_order (B : Nat) (enq : Nat → Nat) (s : ControllerSession) :
    (fill_buffer B enq s).1.order = s.order := rfl

/-- With all enqueues succeeding, a fill pushes `queued_until_index` to the
end of its range (or leaves it unchanged when the range is empty). -/
theorem fill_buffer_queued_benign (B : Nat) (enq : Nat → Nat)
    (h : BenignEnqs enq) (s : ControllerSession) :
    (fill_buffer B enq s).1.queued_until_index
      = (if max s.queued_until_index s.cursor + 1
            ≤ min (s.cursor + B) (s.order.length - 1)
         then min (s.cursor + B) (s.order.length - 1)
         else s.queued_until_index) := by
  show (fillLoop s.order enq (max s.queued_until_index s.cursor + 1)
      s.queued_until_index
      (min (s.cursor + B) (s.order.length - 1) + 1
        - (max s.queued_until_index s.cursor + 1))).1 = _
  by_cases hc : max s.queued_until_index s.cursor + 1
      ≤ min (s.cursor + B) (s.order.length - 1)
  · have hfuel : min (s.cursor + B) (s.order.length - 1) + 1
        - (max s.queued_until_index s.cursor + 1)
        = (min (s.cursor + B) (s.order.length - 1)
            - (max s.queued_until_index s.cursor + 1)) + 1 := by omega
    rw [hfuel, fillLoop_benign s.order enq h]
    rw [if_pos hc]
    omega
  · have hfuel : min (s.cursor + B) (s.order.length - 1) + 1
        - (max s.queued_until_index s.cursor + 1) = 0 := by omega
    rw [hfuel, fillLoop, if_neg hc]

/-- Decoding a successful multi-skip scan. -/
theorem firstSkipMatch_bounds {order : List String} {c : Nat} {uri : String}
    {k : Nat} (h : firstSkipMatch order c uri = some k) :
    2 ≤ k ∧ k ≤ 5 ∧ c + k < order.length := by
  unfold firstSkipMatch at h
  have hmem := List.mem_of_find?_eq_some h
  have hpred := List.find?_some h
  rw [Bool.and_eq_true, decide_eq_true_iff] at hpred
  have hk : k ∈ [2, 3, 4, 5] := hmem
  have hk' : k = 2 ∨ k = 3 ∨ k = 4 ∨ k = 5 := by simpa using hk
  exact ⟨by omega, by omega, hpred.1⟩

/-- Building the invariant from its three parts. -/
theorem SessionInv_mk (B : Nat) (t : ControllerSession)
    (h1 : t.cursor < t.order.length)
    (h2 : t.queued_until_index < t.order.length)
    (h3 : min (t.cursor + B) (t.order.length - 1) ≤ t.queued_until_index) :
    SessionInv B t :=
  ⟨h1, h2, h3⟩

/-- A benign hard override preserves the invariant. -/
theorem hard_override_inv (B : Nat) (play : PlayOutcome) (enq : Nat → Nat)
    (s : ControllerSession) (hB : 1 ≤ B) (hplay : BenignPlay play)
    (henq : BenignEnqs enq) (hInv : SessionInv B s) :
    SessionInv B (hard_override B play enq s).1 := by
  obtain ⟨h1, h2, h3⟩ := hInv
  unfold hard_override
  dsimp only
  split
  · exact ⟨h1, h2, h3⟩
  · cases play with
    | premium msg => exact ⟨h1, h2, h3⟩
    | resp st =>
      dsimp only
      split
      · exact ⟨h1, h2, h3⟩
      · refine SessionInv_mk B _ ?_ ?_ ?_
        · simp only [fill_buffer_cursor, fill_buffer_order]
          exact h1
        · simp only [fill_buffer_order,
            fill_buffer_queued_benign B enq henq]
          split <;> omega
        · simp only [fill_buffer_cursor, fill_buffer_order,
            fill_buffer_queued_benign B enq henq]
          split <;> omega

/-- A benign poll cycle preserves the invariant. -/
theorem poll_playback_inv (B : Nat) (env : PollEnv) (s : ControllerSession)
    (hB : 5 ≤ B) (hplay : BenignPlay env.play) (henq : BenignEnqs env.enq)
    (hInv : SessionInv B s) :
    SessionInv B (poll_playback B env s).1 := by
  obtain ⟨h1, h2, h3⟩ := hInv
  unfold poll_playback
  dsimp only
  split
  · exact ⟨h1, h2, h3⟩
  · split
    · exact ⟨h1, h2, h3⟩
    · split
      · exact ⟨h1, h2, h3⟩
      · split
        · exact ⟨h1, h2, h3⟩
        · split
          · exact ⟨h1, h2, h3⟩
          · split
            · next hcond =>
              obtain ⟨hc1, hc2⟩ := hcond
              refine SessionInv_mk B _ ?_ ?_ ?_
              · simp only [fill_buffer_cursor, fill_buffer_order]
                exact hc1
              · simp only [fill_buffer_order,
                  fill_buffer_queued_benign B env.enq henq]
                split <;> omega
              · simp only [fill_buffer_cursor, fill_buffer_order,
                  fill_buffer_queued_benign B env.enq henq]
                split <;> omega
            · split
              · next k heq =>
                obtain ⟨hk2, hk5, hkin⟩ := firstSkipMatch_bounds heq
                refine SessionInv_mk B _ ?_ ?_ ?_
                · simp only [fill_buffer_cursor, fill_buffer_order]
                  exact hkin
                · simp only [fill_buffer_order,
                    fill_buffer_queued_benign B env.enq henq]
                  split <;> omega
                · simp only [fill_buffer_cursor, fill_buffer_order,
                    fill_buffer_queued_benign B env.enq henq]
                  split <;> omega
              · exact hard_override_inv B env.play env.enq _ (by omega) hplay
                  henq ⟨h1, h2, h3⟩

/-- A benign manual next preserves the invariant. -/
theorem manual_next_inv (B : Nat) (env : NextEnv) (s : ControllerSession)
    (hB : 1 ≤ B) (hplay : BenignPlay env.play) (henq : BenignEnqs env.enq)
    (hInv : SessionInv B s) :
    SessionInv B (manual_next B env s).1 := by
  obtain ⟨pl, enq⟩ := env
  obtain ⟨h1, h2, h3⟩ := hInv
  unfold manual_next
  dsimp only
  split
  · exact ⟨h1, h2, h3⟩
  · next hguard =>
    have hg : ¬ (s.order.length ≤ s.cursor + 1) := hguard
    cases pl with
    | premium msg => exact absurd hplay (by simp [BenignPlay])
    | resp st =>
      dsimp only
      split
      · next hbad => exact absurd hplay hbad
      · refine SessionInv_mk B _ ?_ ?_ ?_
        · simp only [fill_buffer_cursor, fill_buffer_order]
          show s.cursor + 1 < s.order.length
          omega
        · simp only [fill_buffer_order,
            fill_buffer_queued_benign B enq henq]
          split <;> omega
        · simp only [fill_buffer_cursor, fill_buffer_order,
            fill_buffer_queued_benign B enq henq]
          split <;> omega

/-- A benign start with an in-bounds cursor establishes the invariant. -/
theorem start_playback_inv (B : Nat) (env : StartEnv) (s : ControllerSession)
    (hB : 1 ≤ B) (hben : BenignStart env)
    (hc : s.cursor < s.order.length) :
    SessionInv B (start_playback B env s).1 := by
  obtain ⟨devs, pl, enq⟩ := env
  obtain ⟨hdev, hplay, henq⟩ := hben
  unfold start_playback
  dsimp only
  split
  · next heq =>
    rw [heq] at hdev
    simp at hdev
  · split
    · next hguard =>
      have hg : s.order.length ≤ s.cursor := hguard
      omega
    · cases pl with
      | premium msg => exact absurd hplay (by simp [BenignPlay])
      | resp st =>
        dsimp only
        split
        · next hbad => exact absurd hplay hbad
        · refine SessionInv_mk B _ ?_ ?_ ?_
          · simp only [fill_buffer_cursor, fill_buffer_order]
            exact hc
          · simp only [fill_buffer_order,
              fill_buffer_queued_benign B enq henq]
            split <;> omega
          · simp only [fill_buffer_cursor, fill_buffer_order,
              fill_buffer_queued_benign B enq henq]
            split <;> omega

/-- Every benign operation preserves the invariant. -/
theorem applyOp_inv (B : Nat) (op : ControllerOp) (s : ControllerSession)
    (hB : 5 ≤ B) (hben : BenignOp op) (hInv : SessionInv B s) :
    SessionInv B (applyOp B op s).1 := by
  cases op with
  | poll env =>
    show SessionInv B
      (if s.state = ControllerState.playing then poll_playback B env s
       else (s, [])).1
    split
    · exact poll_playback_inv B env s hB hben.1 hben.2 hInv
    · exact hInv
  | next env => exact manual_next_inv B env s (by omega) hben.1 hben.2 hInv
  | stop => exact hInv
  | start env =>
    exact start_playback_inv B env s (by omega) hben hInv.1

/-- Benign operation sequences preserve the invariant. -/
theorem runOps_inv (B : Nat) (ops : List ControllerOp) (s : ControllerSession)
    (hB : 5 ≤ B) (hops : ∀ op ∈ ops, BenignOp op) (hInv : SessionInv B s) :
    SessionInv B (runOps B ops s) := by
  induction ops generalizing s with
  | nil => exact hInv
  | cons op rest ih =>
    exact ih _ (fun o ho => hops o (List.mem_cons_of_mem _ ho))
      (applyOp_inv B op s hB (hops op (List.mem_cons_self _ _)) hInv)

/-- Counterexample to claim C3 as stated: with buffer size 5, a session
over three tracks whose enqueue POSTs all fail (status 500) is started
successfully (initial hard-play returns 204, state reaches `playing`), and
after two natural-advance polls the session has `cursor = 2` but
`queued_until_index = 0`, violating `cursor − 1 ≤ queued_until_index`. -/
theorem controller_invariant_counterexample :
    (start_playback 5
        ⟨[⟨"d1", true⟩], PlayOutcome.resp 204, fun _ => 500⟩
        { run_id := 1, user_id := 1, spotify_user_id := "u", playlist_id := "p",
          order := ["a", "b", "c"], cursor := 0, queued_until_index := 0,
          state := ControllerState.idle, device_id := none,
          error_message := none, current_track_name := none,
          current_artist := none, current_album_art := none }).1.state
      = ControllerState.playing
    ∧ (runOps 5
        [ControllerOp.poll ⟨⟨200, some ⟨"b", "B", [], []⟩, true⟩,
            PlayOutcome.resp 204, fun _ => 500⟩,
          ControllerOp.poll ⟨⟨200, some ⟨"c", "C", [], []⟩, true⟩,
            PlayOutcome.resp 204, fun _ => 500⟩]
        (start_playback 5
          ⟨[⟨"d1", true⟩], PlayOutcome.resp 204, fun _ => 500⟩
          { run_id := 1, user_id := 1, spotify_user_id := "u", playlist_id := "p",
            order := ["a", "b", "c"], cursor := 0, queued_until_index := 0,
            state := ControllerState.idle, device_id := none,
            error_message := none, current_track_name := none,
            current_artist := none, current_album_art := none }).1).cursor = 2
    ∧ (runOps 5
        [ControllerOp.poll ⟨⟨200, some ⟨"b", "B", [], []⟩, true⟩,
            PlayOutcome.resp 204, fun _ => 500⟩,
          ControllerOp.poll ⟨⟨200, some ⟨"c", "C", [], []⟩, true⟩,
            PlayOutcome.resp 204, fun _ => 500⟩]
        (start_playback 5
          ⟨[⟨"d1", true⟩], PlayOutcome.resp 204, fun _ => 500⟩
          { run_id := 1, user_id := 1, spotify_user_id := "u", playlist_id := "p",
            order := ["a", "b", "c"], cursor := 0, queued_until_index := 0,
            state := ControllerState.idle, device_id := none,
            error_message := none, current_track_name := none,
            current_artist := none, current_album_art := none }).1).queued_until_index
      = 0
    ∧ ¬ ((runOps 5
        [ControllerOp.poll ⟨⟨200, some ⟨"b", "B", [], []⟩, true⟩,
            PlayOutcome.resp 204, fun _ => 500⟩,
          ControllerOp.poll ⟨⟨200, some ⟨"c", "C", [], []⟩, true⟩,
            PlayOutcome.resp 204, fun _ => 500⟩]
        (start_playback 5
          ⟨[⟨"d1", true⟩], PlayOutcome.resp 204, fun _ => 500⟩
          { run_id := 1, user_id := 1, spotify_user_id := "u", playlist_id := "p",
            order := ["a", "b", "c"], cursor := 0, queued_until_index := 0,
            state := ControllerState.idle, device_id := none,
            error_message := none, current_track_name := none,
            current_artist := none, current_album_art := none }).1).cursor
      ≤ (runOps 5
        [ControllerOp.poll ⟨⟨200, some ⟨"b", "B", [], []⟩, true⟩,
            PlayOutcome.resp 204, fun _ => 500⟩,
          ControllerOp.poll ⟨⟨200, some ⟨"c", "C", [], []⟩, true⟩,
            PlayOutcome.resp 204, fun _ => 500⟩]
        (start_playback 5
          ⟨[⟨"d1", true⟩], PlayOutcome.resp 204, fun _ => 500⟩
          { run_id := 1, user_id := 1, spotify_user_id := "u", playlist_id := "p",
            order := ["a", "b", "c"], cursor := 0, queued_until_index := 0,
            state := ControllerState.idle, device_id := none,
            error_message := none, current_track_name := none,
            current_artist := none, current_album_art := none }).1).queued_until_index
        + 1) := by
  decide

/-- Claim C3 (amended): for buffer size `B ≥ 5`, for every session started
by a successful `start_playback` (device found, in-bounds cursor) in an
environment where every remote play and enqueue call succeeds (2xx, no
premium error), and after any sequence of operations whose remote calls
all succeed as well, the session satisfies `0 ≤ cursor ≤ |order|` and
`cursor − 1 ≤ queued_until_index < |order|`.  (As every prefix of `ops` is
itself such a sequence, the invariant holds at every observation point.)
Without the all-remote-calls-succeed assumption the invariant fails, see
the counterexample. -/
theorem controller_invariant_of_benign (B : Nat) (s0 : ControllerSession)
    (env0 : StartEnv) (ops : List ControllerOp)
    (hB : 5 ≤ B) (h0 : BenignStart env0) (hc0 : s0.cursor < s0.order.length)
    (hops : ∀ op ∈ ops, BenignOp op) :
    (runOps B ops (start_playback B env0 s0).1).cursor
        ≤ (runOps B ops (start_playback B env0 s0).1).order.length
    ∧ (runOps B ops (start_playback B env0 s0).1).cursor
        ≤ (runOps B ops (start_playback B env0 s0).1).queued_until_index + 1
    ∧ (runOps B ops (start_playback B env0 s0).1).queued_until_index
        < (runOps B ops (start_playback B env0 s0).1).order.length := by
  have h1 := start_playback_inv B env0 s0 (by omega) h0 hc0
  obtain ⟨ha, hb, hcq⟩ := runOps_inv B ops _ hB hops h1
  exact ⟨by omega, by omega, hb⟩

/-- Witness for the amended C3 on a concrete benign run: start over two
tracks, then one natural-advance poll and a stop. -/
theorem controller_invariant_of_benign_witness :
    (runOps 5
        [ControllerOp.poll ⟨⟨200, some ⟨"b", "B", [], []⟩, true⟩,
            PlayOutcome.resp 204, fun _ => 204⟩, ControllerOp.stop]
        (start_playback 5
          ⟨[⟨"d1", true⟩], PlayOutcome.resp 204, fun _ => 204⟩
          { run_id := 1, user_id := 1, spotify_user_id := "u", playlist_id := "p",
            order := ["a", "b"], cursor := 0, queued_until_index := 0,
            state := ControllerState.idle, device_id := none,
            error_message := none, current_track_name := none,
            current_artist := none, current_album_art := none }).1).cursor
      ≤ (runOps 5
        [ControllerOp.poll ⟨⟨200, some ⟨"b", "B", [], []⟩, true⟩,
            PlayOutcome.resp 204, fun _ => 204⟩, ControllerOp.stop]
        (start_playback 5
          ⟨[⟨"d1", true⟩], PlayOutcome.resp 204, fun _ => 204⟩
          { run_id := 1, user_id := 1, spotify_user_id := "u", playlist_id := "p",
            order := ["a", "b"], cursor := 0, queued_until_index := 0,
            state := ControllerState.idle, device_id := none,
            error_message := none, current_track_name := none,
            current_artist := none, current_album_art := none }).1).queued_until_index
        + 1 := by
  have hops : ∀ op ∈ [ControllerOp.poll ⟨⟨200, some ⟨"b", "B", [], []⟩, true⟩,
      PlayOutcome.resp 204, fun _ => 204⟩, ControllerOp.stop], BenignOp op := by
    intro op hop
    rcases List.mem_cons.mp hop with h | h
    · rw [h]
      exact ⟨rfl, fun i => rfl⟩
    · rcases List.mem_cons.mp h with h' | h'
      · rw [h']
        exact trivial
      · simp at h'
  exact (controller_invariant_of_benign 5
    { run_id := 1, user_id := 1, spotify_user_id := "u", playlist_id := "p",
      order := ["a", "b"], cursor := 0, queued_until_index := 0,
      state := ControllerState.idle, device_id := none,
      error_message := none, current_track_name := none,
      current_artist := none, current_album_art := none }
    ⟨[⟨"d1", true⟩], PlayOutcome.resp 204, fun _ => 204⟩
    [ControllerOp.poll ⟨⟨200, some ⟨"b", "B", [], []⟩, true⟩,
        PlayOutcome.resp 204, fun _ => 204⟩, ControllerOp.stop]
    (by norm_num) ⟨rfl, rfl, fun i => rfl⟩ (by norm_num) hops).2.1

/-! ## The /controller/start route is not idempotent -/

/-- The `start_playback` never changes the order. -/
theorem start_playback_order (B : Nat) (env : StartEnv) (s : ControllerSession) :
    (start_playback B env s).1.order = s.order := by
  obtain ⟨devs, pl, enq⟩ := env
  unfold start_playback
  dsimp only
  split
  · rfl
  · split
    · rfl
    · cases pl with
      | premium msg => rfl
      | resp st =>
        dsimp only
        split
        · rfl
        · rfl

/-- When a device is found and the cursor is in bounds, `start_playback`
always issues the hard-play call for `order[cursor]`. -/
theorem start_playback_play_call (B : Nat) (env : StartEnv)
    (s : ControllerSession)
    (hdev : (truthy (find_active_device env.devices)).isSome)
    (hcur : s.cursor < s.order.length) :
    SpCall.play [s.order.getD s.cursor ("")] none ∈ (start_playback B env s).2 := by
  obtain ⟨devs, pl, enq⟩ := env
  simp only at hdev
  unfold start_playback
  dsimp only
  split
  · next heq =>
    rw [heq] at hdev
    simp at hdev
  · split
    · next hg =>
      have hg' : s.order.length ≤ s.cursor := hg
      omega
    · cases pl with
      | premium msg => simp
      | resp st =>
        dsimp only
        split
        · simp
        · simp

/-- Counterexample to claim C5 as stated: a session for `("u", "p")` is
registered and in state `playing` (its loop live), and the durable run row
exists; a second `start` command nevertheless replaces the registered
session with a freshly built one (its UI metadata is reset) and issues a
new hard-play of `order[cursor]`.  (It does resume the stored order and
cursor — it does not re-shuffle.) -/
theorem start_not_idempotent_counterexample :
    (match start_command 5
        ⟨⟨some 1, some ⟨7, ["a", "b", "c"], 1, 2⟩, [], 99, fun _ => 0⟩,
          ⟨[⟨"d", true⟩], PlayOutcome.resp 204, fun _ => 204⟩⟩
        "u" "p"
        (fun k => if k = ("u", "p") then some
          { run_id := 7, user_id := 1, spotify_user_id := "u",
            playlist_id := "p", order := ["a", "b", "c"], cursor := 1,
            queued_until_index := 2, state := ControllerState.playing,
            device_id := some ("d"), error_message := none,
            current_track_name := some ("Old Song"),
            current_artist := some ("X"), current_album_art := none }
          else none) with
     | Except.ok (s', reg', calls, _) =>
        SpCall.play ["b"] none ∈ calls
          ∧ reg' ("u", "p") ≠ some
            { run_id := 7, user_id := 1, spotify_user_id := "u",
              playlist_id := "p", order := ["a", "b", "c"], cursor := 1,
              queued_until_index := 2, state := ControllerState.playing,
              device_id := some ("d"), error_message := none,
              current_track_name := some ("Old Song"),
              current_artist := some ("X"), current_album_art := none }
          ∧ s'.current_track_name = none
     | Except.error _ => False) := by
  simp only [start_command, create_or_resume_run]
  decide

/-- Claim C5 (amended): a second `start` for a `(user, playlist)` whose
active run row exists does resume the durable run — the session's order
and cursor come from the stored row, no re-shuffle happens — but the
command is not idempotent: it builds and registers a fresh
`ControllerSession` (replacing the one in the registry) and issues a new
hard-play for `order[cursor]` whenever a device is found and the cursor is
in bounds. -/
theorem start_resumes_run_and_reseeds (B : Nat) (env : StartCmdEnv)
    (uid pid : String) (reg : Registry) (row : RunRow) (u : Nat)
    (huser : env.resume.userId = some u)
    (hrow : env.resume.activeRow = some row)
    (hdev : (truthy (find_active_device env.playback.devices)).isSome)
    (hcur : row.cursor < row.shuffled_order.length) :
    ∃ s' reg' calls status,
      start_command B env uid pid reg = Except.ok (s', reg', calls, status)
        ∧ s'.order = row.shuffled_order
        ∧ s'.cursor = row.cursor
        ∧ SpCall.play [row.shuffled_order.getD row.cursor ("")] none ∈ calls
        ∧ reg' (uid, pid) = some s' := by
  obtain ⟨res, pb⟩ := env
  simp only at huser hrow hdev
  simp only [start_command, create_or_resume_run, huser, hrow]
  refine ⟨_, _, _, _, rfl, ?_, ?_, ?_, ?_⟩
  · rw [start_playback_order]
  · rw [start_playback_cursor]
  · exact start_playback_play_call B pb _ hdev hcur
  · simp [regSet]

/-- Witness for the amended C5 at the concrete resume scenario. -/
theorem start_resumes_run_and_reseeds_witness :
    (match start_command 5
        ⟨⟨some 1, some ⟨7, ["a", "b", "c"], 1, 2⟩, [], 99, fun _ => 0⟩,
          ⟨[⟨"d", true⟩], PlayOutcome.resp 204, fun _ => 204⟩⟩
        "u" "p" (fun _ => none) with
     | Except.ok (s', reg', calls, _) =>
        s'.order = ["a", "b", "c"] ∧ s'.cursor = 1
          ∧ SpCall.play ["b"] none ∈ calls ∧ reg' ("u", "p") = some s'
     | Except.error _ => False) := by
  obtain ⟨s', reg', calls, status, heq, hord, hcur', hplay, hreg⟩ :=
    start_resumes_run_and_reseeds 5
      ⟨⟨some 1, some ⟨7, ["a", "b", "c"], 1, 2⟩, [], 99, fun _ => 0⟩,
        ⟨[⟨"d", true⟩], PlayOutcome.resp 204, fun _ => 204⟩⟩
      "u" "p" (fun _ => none) ⟨7, ["a", "b", "c"], 1, 2⟩ 1
      rfl rfl rfl (by norm_num)
  rw [heq]
  exact ⟨hord, hcur', hplay, hreg⟩
